import Mathlib

/-!
# The control-socket client of fast-lb (`libipvs-2.6/sockopt.c`)

A shallow embedding of the four functions of `sockopt.c`

* `sockopt_msg_send`  (lines 11-40),
* `sockopt_msg_recv`  (lines 42-108),
* `dpvs_setsockopt`   (lines 110-168),
* `dpvs_getsockopt`   (lines 170-236),

over an explicit model of what they act upon: the heap (`malloc`/`free`), the
descriptor table (`socket`/`connect`/`close`) and the stream socket
(`sendn`/`readn`).  C integers are mathematical integers with the
conversions to `int` and `size_t` written out (`toInt32`, `toSizeT`).

The header `sockopt.h` (constants, struct layouts) is a parameter, `SockoptH`.
-/

namespace Sockopt

/-- Octets travelling on the socket (values 0..255). -/
abbrev Byte := Nat

/-- A C pointer into the heap: `none` is `NULL`, `some a` the buffer at address `a`. -/
abbrev Ptr := Option Nat

/-- Conversion to the C type `int`: 32 bits, two's complement (what `int res = ...`
does to a wider value). -/
def toInt32 (z : Int) : Int :=
  let m : Nat := (z % 4294967296).toNat
  if m < 2147483648 then (m : Int) else (m : Int) - 4294967296

/-- Conversion to `size_t`: 64 bits, unsigned (what passing an `int` for a `size_t`
parameter, or comparing an `int` with a `size_t`, does). -/
def toSizeT (z : Int) : Nat := (z % 18446744073709551616).toNat

/-- Request header `struct dpvs_sock_msg`; the fields `sockopt.c` writes. -/
structure dpvs_sock_msg where
  version : Nat
  id : Int
  type : Nat
  len : Nat
deriving DecidableEq, Repr

/-- Reply header `struct dpvs_sock_msg_reply`; the fields `sockopt.c` reads. -/
structure dpvs_sock_msg_reply where
  version : Nat
  id : Int
  errcode : Int
  errstr : List Byte
  len : Nat
deriving DecidableEq, Repr

/-- The contents of `sockopt.h`, which `sockopt.c` includes: the protocol
version, the two operation kinds, the status constants, and the size and byte
representation of the two header structs.  Every function below takes it as a
parameter. -/
structure SockoptH where
  SOCKOPT_VERSION : Nat
  SOCKOPT_SET : Nat
  SOCKOPT_GET : Nat
  ESOCKOPT_OK : Int
  ESOCKOPT_INVAL : Int
  ESOCKOPT_IO : Int
  ESOCKOPT_NOMEM : Int
  ESOCKOPT_VERSION : Int
  /-- Value of `sizeof(struct dpvs_sock_msg)`. -/
  msgSize : Nat
  /-- Value of `sizeof(struct dpvs_sock_msg_reply)`. -/
  replySize : Nat
  /-- Bytes of a request header as it lies in memory. -/
  encodeMsg : dpvs_sock_msg → List Byte
  /-- Reply header held by `replySize` bytes of memory. -/
  decodeReply : List Byte → dpvs_sock_msg_reply
  msgSize_lt : msgSize < 2147483648
  replySize_lt : replySize < 2147483648
  encodeMsg_length : ∀ m, (encodeMsg m).length = msgSize

/-! ## The heap -/

/-- A live heap buffer. -/
structure Buffer where
  addr : Nat
  size : Nat
  data : List Byte
deriving DecidableEq, Repr

/-- Heap state.  `plan` is the environment's answer to the coming calls of
`malloc` (`true`: the call succeeds); `cells` are the live buffers; `freed`
logs every address handed to `free`, newest first. -/
structure Heap where
  plan : List Bool
  next : Nat
  cells : List Buffer
  freed : List Nat
deriving DecidableEq, Repr

/-- Libc `malloc(n)`: a fresh buffer, or `NULL` when the environment refuses. -/
def malloc (hp : Heap) (n : Nat) : Ptr × Heap :=
  match hp.plan with
  | true :: rest =>
    (some hp.next,
      { plan := rest, next := hp.next + 1,
        cells := { addr := hp.next, size := n, data := [] } :: hp.cells,
        freed := hp.freed })
  | false :: rest => (none, { hp with plan := rest })
  | [] => (none, hp)

/-- Libc `free(p)`: nothing for `NULL`; otherwise the buffer stops being live
and the call is logged. -/
def free (hp : Heap) (p : Ptr) : Heap :=
  match p with
  | none => hp
  | some a =>
    { hp with cells := hp.cells.filter (fun c => c.addr ≠ a), freed := a :: hp.freed }

/-- Writing `bytes` at the start of the buffer `p` points to. -/
def store (hp : Heap) (p : Ptr) (bytes : List Byte) : Heap :=
  match p with
  | none => hp
  | some a =>
    { hp with cells := hp.cells.map (fun c => if c.addr = a then { c with data := bytes } else c) }

/-- The live buffer at address `a`, if any. -/
def Heap.lookup (hp : Heap) (a : Nat) : Option Buffer :=
  hp.cells.find? (fun c => c.addr = a)

/-! ## The descriptor table -/

/-- Descriptor table.  `socketRet` is what the coming `socket()` returns (a
descriptor, or `-1`), `connectRet` what `connect()` returns on that descriptor;
`opened` are the open descriptors. -/
structure Fds where
  socketRet : Int
  connectRet : Int
  opened : List Int
deriving DecidableEq, Repr

/-- System call `socket(PF_UNIX, SOCK_STREAM, 0)`. -/
def socket (f : Fds) : Int × Fds :=
  if 0 ≤ f.socketRet then (f.socketRet, { f with opened := f.socketRet :: f.opened })
  else (-1, f)

/-- System call `connect(fd, ...)`: fails on a descriptor that is not open. -/
def connect (f : Fds) (fd : Int) : Int :=
  if fd ∈ f.opened then f.connectRet else -1

/-- System call `close(fd)`. -/
def close (f : Fds) (fd : Int) : Fds :=
  { f with opened := f.opened.erase fd }

/-! ## The stream socket -/

/-- The connected socket as the peer drives it.  `room`: how many bytes the
peer accepts before the channel fails; `sent`: the bytes written so far;
`input`: the bytes the peer still delivers; `inputErr`: whether the stream
ends in an error rather than an orderly end of file; `consumed`: how many bytes
were read so far. -/
structure Chan where
  room : Nat
  sent : List Byte
  input : List Byte
  inputErr : Bool
  consumed : Nat
deriving DecidableEq, Repr

/-- Modelled from the spec: `sendn` of `common.h`, the spec's `send_all` (4.1):
it transfers exactly the `n` requested bytes found at `buf`, or fails.  On
success the value is `n`; on failure (the channel gives out, or the memory at
`buf` ends before `n` bytes) it is `-1` and what could be written was written. -/
def sendn (ch : Chan) (buf : List Byte) (n : Nat) : Int × Chan :=
  if n ≤ buf.length ∧ n ≤ ch.room then
    ((n : Int), { ch with sent := ch.sent ++ buf.take n, room := ch.room - n })
  else
    (-1, { ch with sent := ch.sent ++ buf.take (min n ch.room),
                   room := ch.room - min (min n ch.room) buf.length })

/-- Result of `readn`: the value returned, the bytes placed in the caller's
buffer, the socket afterwards. -/
structure ReadResult where
  ret : Int
  data : List Byte
  chan : Chan
deriving DecidableEq, Repr

/-- Modelled from the spec: `readn` of `common.h`, the spec's `recv_all` (4.1):
it receives exactly `n` bytes, or fails.  On success the value is `n`; when the
stream ends first, every remaining byte is consumed and the value is the
number of bytes received (end of file) or `-1` (error). -/
def readn (ch : Chan) (n : Nat) : ReadResult :=
  if n ≤ ch.input.length then
    { ret := (n : Int), data := ch.input.take n,
      chan := { ch with input := ch.input.drop n, consumed := ch.consumed + n } }
  else
    { ret := if ch.inputErr then -1 else (ch.input.length : Int), data := ch.input,
      chan := { ch with input := [], consumed := ch.consumed + ch.input.length } }

/-! ## `sockopt_msg_send` -/

/-- Source `sockopt_msg_send(clt_fd, hdr, data, data_len)`, lines 11-40.
`hdr = none` is a `NULL` header, `data = none` a `NULL` body pointer, `some d`
a pointer to the readable bytes `d`. -/
def sockopt_msg_send (H : SockoptH) (ch : Chan) (hdr : Option dpvs_sock_msg)
    (data : Option (List Byte)) (data_len : Int) : Int × Chan :=
  match hdr with
  | none => (- H.ESOCKOPT_INVAL, ch)
  | some h =>
    let len : Int := toInt32 H.msgSize
    let s1 := sendn ch (H.encodeMsg h) (toSizeT len)
    let res : Int := toInt32 s1.1
    if len ≠ res then (- H.ESOCKOPT_IO, s1.2)
    else
      match data with
      | none => (0, s1.2)
      | some d =>
        if data_len ≠ 0 then
          let s2 := sendn s1.2 d (toSizeT data_len)
          let res2 : Int := toInt32 s2.1
          if data_len ≠ res2 then (- H.ESOCKOPT_IO, s2.2) else (0, s2.2)
        else (0, s1.2)

/-! ## `sockopt_msg_recv` -/

/-- What `sockopt_msg_recv` leaves behind: its return value, the caller's three
slots (`none`: the caller passed `NULL` for that slot), the socket and the heap. -/
structure RecvResult where
  ret : Int
  reply_hdr : Option dpvs_sock_msg_reply
  out : Option Ptr
  out_len : Option Nat
  chan : Chan
  heap : Heap
deriving DecidableEq, Repr

/-- Source `sockopt_msg_recv(clt_fd, reply_hdr, out, out_len)`, lines 42-108.
Each slot is `none` when the caller passes `NULL` and `some v` when the caller
passes the address of a variable currently holding `v`. -/
def sockopt_msg_recv (H : SockoptH) (ch : Chan) (hp : Heap)
    (reply_hdr : Option dpvs_sock_msg_reply) (out : Option Ptr) (out_len : Option Nat) :
    RecvResult :=
  match reply_hdr with
  | none =>
    { ret := - H.ESOCKOPT_INVAL, reply_hdr := none, out := out, out_len := out_len,
      chan := ch, heap := hp }
  | some _ =>
    -- lines 53-56
    let out0 : Option Ptr := out.map (fun _ => none)
    let len0 : Option Nat := out_len.map (fun _ => 0)
    -- lines 58-65
    let len : Int := toInt32 H.replySize
    let r1 := readn ch (toSizeT len)
    let hdr := H.decodeReply (r1.data ++ List.replicate (H.replySize - r1.data.length) 0)
    let res : Int := toInt32 r1.ret
    if len ≠ res then
      { ret := - H.ESOCKOPT_IO, reply_hdr := some hdr, out := out0, out_len := len0,
        chan := r1.chan, heap := hp }
    -- lines 67-71
    else if hdr.errcode ≠ 0 then
      { ret := hdr.errcode, reply_hdr := some hdr, out := out0, out_len := len0,
        chan := r1.chan, heap := hp }
    else
      -- lines 73-87: `Except.error` is a `return` inside the block
      let body : Except RecvResult (Ptr × Chan × Heap) :=
        if 0 < hdr.len then
          let m := malloc hp hdr.len
          match m.1 with
          | none =>
            .error { ret := - H.ESOCKOPT_NOMEM, reply_hdr := some hdr, out := out0,
                     out_len := len0, chan := r1.chan, heap := m.2 }
          | some a =>
            let r2 := readn r1.chan hdr.len
            let hp2 := store m.2 (some a) r2.data
            let res2 : Int := toInt32 r2.ret
            if toSizeT res2 ≠ hdr.len then
              .error { ret := - H.ESOCKOPT_IO, reply_hdr := some hdr, out := out0,
                       out_len := len0, chan := r2.chan, heap := free hp2 (some a) }
            else .ok (some a, r2.chan, hp2)
        else .ok (none, r1.chan, hp)
      match body with
      | .error r => r
      | .ok (msg, ch2, hp2) =>
        -- lines 89-94
        if H.SOCKOPT_VERSION ≠ hdr.version then
          { ret := - H.ESOCKOPT_VERSION, reply_hdr := some hdr, out := out0, out_len := len0,
            chan := ch2, heap := if 0 < hdr.len then free hp2 msg else hp2 }
        -- lines 96-107
        else if out.isSome ∧ out_len.isSome then
          { ret := H.ESOCKOPT_OK, reply_hdr := some hdr, out := some msg,
            out_len := some hdr.len, chan := ch2, heap := hp2 }
        else if 0 < hdr.len then
          { ret := H.ESOCKOPT_OK, reply_hdr := some hdr, out := out0.map (fun _ => none),
            out_len := len0.map (fun _ => 0), chan := ch2, heap := free hp2 msg }
        else
          { ret := H.ESOCKOPT_OK, reply_hdr := some hdr, out := out0, out_len := len0,
            chan := ch2, heap := hp2 }

/-! ## `dpvs_setsockopt` and `dpvs_getsockopt` -/

/-- The three parts of the environment a call acts upon. -/
structure World where
  heap : Heap
  fds : Fds
  chan : Chan
deriving DecidableEq, Repr

/-- Source `dpvs_setsockopt(cmd, in, in_len)`, lines 110-168: the status and
the world afterwards.  `inp = none` is `in == NULL`; `in_len` is a `size_t`. -/
def dpvs_setsockopt (H : SockoptH) (w : World) (cmd : Int) (inp : Option (List Byte))
    (in_len : Nat) : Int × World :=
  -- lines 123-128
  let m := malloc w.heap H.msgSize
  match m.1 with
  | none => (- H.ESOCKOPT_INVAL, { w with heap := m.2 })
  | some a =>
    -- lines 130-137
    let s := socket w.fds
    let clt_fd := s.1
    if -1 = connect s.2 clt_fd then
      (- H.ESOCKOPT_IO, { w with heap := free m.2 (some a), fds := s.2 })
    else
      -- lines 139-147
      let msg : dpvs_sock_msg :=
        { version := H.SOCKOPT_VERSION, id := cmd, type := H.SOCKOPT_SET, len := in_len }
      let hp1 := store m.2 (some a) (H.encodeMsg msg)
      let sd := sockopt_msg_send H w.chan (some msg) inp (toInt32 in_len)
      let hp2 := free hp1 (some a)
      -- lines 149-152
      if sd.1 ≠ 0 then (sd.1, { heap := hp2, fds := close s.2 clt_fd, chan := sd.2 })
      else
        -- lines 154-158; `reply_hdr` is a local variable, `out` and `out_len` are `NULL`
        let r := sockopt_msg_recv H sd.2 hp2
          (some { version := 0, id := 0, errcode := 0, errstr := [], len := 0 }) none none
        if r.ret ≠ 0 then (r.ret, { heap := r.heap, fds := close s.2 clt_fd, chan := r.chan })
        else
          -- lines 160-167
          match r.reply_hdr with
          | some hdr =>
            if hdr.errcode ≠ 0 then
              (hdr.errcode, { heap := r.heap, fds := close s.2 clt_fd, chan := r.chan })
            else (H.ESOCKOPT_OK, { heap := r.heap, fds := close s.2 clt_fd, chan := r.chan })
          | none => (H.ESOCKOPT_OK, { heap := r.heap, fds := close s.2 clt_fd, chan := r.chan })

/-- What `dpvs_getsockopt` leaves behind: the status, the caller's two output
slots, and the world. -/
structure GetResult where
  ret : Int
  out : Option Ptr
  out_len : Option Nat
  world : World
deriving DecidableEq, Repr

/-- Source `dpvs_getsockopt(cmd, in, in_len, out, out_len)`, lines 170-236.
`out` and `out_len` are the caller's slots: `none` for `NULL`, `some v` for the
address of a variable holding `v`. -/
def dpvs_getsockopt (H : SockoptH) (w : World) (cmd : Int) (inp : Option (List Byte))
    (in_len : Nat) (out : Option Ptr) (out_len : Option Nat) : GetResult :=
  -- lines 180-185
  if out.isNone ∨ out_len.isNone then
    { ret := -1, out := out, out_len := out_len, world := w }
  else
    -- lines 191-196
    let m := malloc w.heap H.msgSize
    match m.1 with
    | none =>
      { ret := - H.ESOCKOPT_NOMEM, out := some none, out_len := some 0,
        world := { w with heap := m.2 } }
    | some a =>
      -- lines 198-205
      let s := socket w.fds
      let clt_fd := s.1
      if -1 = connect s.2 clt_fd then
        { ret := - H.ESOCKOPT_IO, out := some none, out_len := some 0,
          world := { w with heap := free m.2 (some a), fds := s.2 } }
      else
        -- lines 207-215
        let msg : dpvs_sock_msg :=
          { version := H.SOCKOPT_VERSION, id := cmd, type := H.SOCKOPT_GET, len := in_len }
        let hp1 := store m.2 (some a) (H.encodeMsg msg)
        let sd := sockopt_msg_send H w.chan (some msg) inp (toInt32 in_len)
        let hp2 := free hp1 (some a)
        -- lines 217-220
        if sd.1 ≠ 0 then
          { ret := sd.1, out := some none, out_len := some 0,
            world := { heap := hp2, fds := close s.2 clt_fd, chan := sd.2 } }
        else
          -- lines 222-226
          let r := sockopt_msg_recv H sd.2 hp2
            (some { version := 0, id := 0, errcode := 0, errstr := [], len := 0 })
            (some none) (some 0)
          let w2 : World := { heap := r.heap, fds := close s.2 clt_fd, chan := r.chan }
          if r.ret ≠ 0 then { ret := r.ret, out := r.out, out_len := r.out_len, world := w2 }
          else
            -- lines 228-235
            match r.reply_hdr with
            | some hdr =>
              if hdr.errcode ≠ 0 then
                { ret := hdr.errcode, out := r.out, out_len := r.out_len, world := w2 }
              else { ret := H.ESOCKOPT_OK, out := r.out, out_len := r.out_len, world := w2 }
            | none => { ret := H.ESOCKOPT_OK, out := r.out, out_len := r.out_len, world := w2 }

/-! ## One concrete `sockopt.h` -/

/-- The `k` low-order bytes of `n`, least significant first. -/
def le : Nat → Nat → List Byte
  | 0, _ => []
  | k + 1, n => n % 256 :: le k (n / 256)

/-- The number a little-endian byte string stands for. -/
def unle : List Byte → Nat
  | [] => 0
  | b :: bs => b % 256 + 256 * unle bs

/-- Modelled from the spec: the wire format of section 6, packed and
little-endian.  Request header: `version: u32`, `command_id: i32`,
`operation_kind: u8` (1 = SET, 2 = GET), `body_length: u64`; reply header:
`version: u32`, `command_id: i32`, `error_code: i32`, a 64-byte `error_string`,
`body_length: u64`.  The spec leaves the protocol version and the values of the
status constants open; they get sample values here (version 1, `ESOCKOPT_OK = 0`,
the four failure constants 1 to 4).  The general theorems below hold for every
`SockoptH`; this one serves to run the functions on concrete inputs. -/
def specH : SockoptH where
  SOCKOPT_VERSION := 1
  SOCKOPT_SET := 1
  SOCKOPT_GET := 2
  ESOCKOPT_OK := 0
  ESOCKOPT_INVAL := 1
  ESOCKOPT_IO := 2
  ESOCKOPT_NOMEM := 3
  ESOCKOPT_VERSION := 4
  msgSize := 17
  replySize := 84
  encodeMsg := fun m =>
    le 4 m.version ++ le 4 (toSizeT m.id) ++ le 1 m.type ++ le 8 m.len
  decodeReply := fun bs =>
    { version := unle (bs.take 4),
      id := toInt32 (unle ((bs.drop 4).take 4)),
      errcode := toInt32 (unle ((bs.drop 8).take 4)),
      errstr := (bs.drop 12).take 64,
      len := unle ((bs.drop 76).take 8) }
  msgSize_lt := by decide
  replySize_lt := by decide
  encodeMsg_length := fun _ => rfl

/-- Bytes of a reply header in the layout of `specH`: the inverse of its
`decodeReply` on headers whose fields are in range. -/
def encodeReply (h : dpvs_sock_msg_reply) : List Byte :=
  le 4 h.version ++ le 4 (toSizeT h.id) ++ le 4 (toSizeT h.errcode)
    ++ (h.errstr ++ List.replicate (64 - h.errstr.length) 0).take 64 ++ le 8 h.len

/-! ## Vocabulary of the statements -/

/-- The request header `dpvs_setsockopt` fills in (lines 139-143). -/
def setMsg (H : SockoptH) (cmd : Int) (in_len : Nat) : dpvs_sock_msg :=
  { version := H.SOCKOPT_VERSION, id := cmd, type := H.SOCKOPT_SET, len := in_len }

/-- The request header `dpvs_getsockopt` fills in (lines 207-211). -/
def getMsg (H : SockoptH) (cmd : Int) (in_len : Nat) : dpvs_sock_msg :=
  { version := H.SOCKOPT_VERSION, id := cmd, type := H.SOCKOPT_GET, len := in_len }

/-- The reply header is fully received: the peer delivers at least
`sizeof(struct dpvs_sock_msg_reply)` bytes. -/
def HeaderArrives (H : SockoptH) (ch : Chan) : Prop := H.replySize ≤ ch.input.length

instance (H : SockoptH) (ch : Chan) : Decidable (HeaderArrives H ch) :=
  inferInstanceAs (Decidable (H.replySize ≤ ch.input.length))

/-- The reply header standing at the front of the socket's input. -/
def replyOf (H : SockoptH) (ch : Chan) : dpvs_sock_msg_reply :=
  H.decodeReply (ch.input.take H.replySize)

/-- The `n` body bytes that follow the reply header on the socket. -/
def bodyOf (H : SockoptH) (ch : Chan) (n : Nat) : List Byte :=
  (ch.input.drop H.replySize).take n

/-- The request-header allocation and the connection succeed: `malloc` (line
124 / 192) returns a buffer and `connect` (line 131 / 199) does not return -1. -/
def Connects (H : SockoptH) (w : World) : Prop :=
  (malloc w.heap H.msgSize).1.isSome = true ∧ connect (socket w.fds).2 (socket w.fds).1 ≠ -1

instance (H : SockoptH) (w : World) : Decidable (Connects H w) :=
  inferInstanceAs (Decidable (_ ∧ _))

/-- The send phase of a call with request header `msg` reports success:
`sockopt_msg_send` (line 144 / 212) returns 0. -/
def SendOk (H : SockoptH) (w : World) (msg : dpvs_sock_msg) (inp : Option (List Byte))
    (in_len : Nat) : Prop :=
  (sockopt_msg_send H w.chan (some msg) inp (toInt32 in_len)).1 = 0

instance (H : SockoptH) (w : World) (msg : dpvs_sock_msg) (inp : Option (List Byte))
    (in_len : Nat) : Decidable (SendOk H w msg inp in_len) :=
  inferInstanceAs (Decidable (_ = _))

/-- The body bytes a caller hands over: none behind a `NULL` pointer, else the
first `in_len` bytes at `in`. -/
def requestBody (inp : Option (List Byte)) (in_len : Nat) : List Byte :=
  match inp with
  | none => []
  | some b => b.take in_len

/-- A heap on which the coming calls of `malloc` answer as in `plan`. -/
def heapWith (plan : List Bool) : Heap :=
  { plan := plan, next := 100, cells := [], freed := [] }

/-- A socket whose peer accepts 1000 bytes and delivers `inp`, then closes. -/
def chanWith (inp : List Byte) : Chan :=
  { room := 1000, sent := [], input := inp, inputErr := false, consumed := 0 }

/-- A world in which `socket()` returns descriptor 3, `connect()` returns
`conn`, no descriptor is open yet, `malloc` answers as in `plan` and the peer
delivers `inp`. -/
def worldWith (plan : List Bool) (conn : Int) (inp : List Byte) : World :=
  { heap := heapWith plan, fds := { socketRet := 3, connectRet := conn, opened := [] },
    chan := chanWith inp }

/-- A reply header with the given version, error code and body length, command 7
and an empty error string (64 NUL bytes). -/
def replyHdr (version : Nat) (errcode : Int) (len : Nat) : dpvs_sock_msg_reply :=
  { version := version, id := 7, errcode := errcode, errstr := List.replicate 64 0, len := len }

/-- The local variable `reply_hdr` of the two entry points before it is filled. -/
def blankReply : dpvs_sock_msg_reply :=
  { version := 0, id := 0, errcode := 0, errstr := [], len := 0 }

/-- The socket after the reply header was read from it. -/
def afterHdr (H : SockoptH) (ch : Chan) : Chan :=
  { ch with input := ch.input.drop H.replySize, consumed := ch.consumed + H.replySize }

/-- The heap once the body buffer is allocated and filled with `bytes`. -/
def heapWithBody (hp : Heap) (rest : List Bool) (n : Nat) (bytes : List Byte) : Heap :=
  store { plan := rest, next := hp.next + 1,
          cells := { addr := hp.next, size := n, data := [] } :: hp.cells,
          freed := hp.freed } (some hp.next) bytes

/-- The heap once the request header of a call was allocated, filled with
`bytes` and freed again (lines 124-146 / 192-214). -/
def heapAfterSend (H : SockoptH) (hp : Heap) (bytes : List Byte) : Heap :=
  free (store (malloc hp H.msgSize).2 (malloc hp H.msgSize).1 bytes) (malloc hp H.msgSize).1

/-- The descriptor table once the socket of a call was created and closed again. -/
def fdsAfterClose (f : Fds) : Fds := close (socket f).2 (socket f).1

/-- A world whose server rejects the request: its reply carries error code 42,
a foreign version 2 and announces (and sends) a 12-byte body. -/
def rejectWorld : World :=
  worldWith [true, true] 0 (encodeReply (replyHdr 2 42 12) ++ List.replicate 12 9)

/-- A socket on which the server answers with a foreign version 2, error code 0
and a body of 2^31 bytes, all of them delivered. -/
def wideReplyChan : Chan :=
  chanWith (encodeReply (replyHdr 2 0 2147483648) ++ List.replicate 2147483648 0)

/-- A world whose server answers with a foreign version 2, error code 0 and a
3-byte body. -/
def mismatchWorld : World :=
  worldWith [true, true] 0 (encodeReply (replyHdr 2 0 3) ++ [9, 8, 7])

/-- A world whose server accepts a `get`: version 1, error code 0 and the 12 body
bytes 1 to 12, followed by a stray byte. -/
def getWorld : World :=
  worldWith [true, true] 0
    (encodeReply (replyHdr 1 0 12) ++ [1, 2, 3, 4, 5, 6, 7, 8, 9, 10, 11, 12] ++ [99])

/-- A world whose server accepts the request and sends no body. -/
def okWorld : World := worldWith [true] 0 (encodeReply (replyHdr 1 0 0))

/-- A world in which the socket is created (descriptor 3) and `connect()` fails:
no server listens on the path. -/
def refusedWorld : World := worldWith [true] (-1) []

/-- A world in which the allocation of the request header fails. -/
def nomemWorld : World := worldWith [false] 0 (encodeReply (replyHdr 1 0 0))

/-- A world whose server rejects the request with error code -2, the value of
`-ESOCKOPT_IO` in `specH`. -/
def rejectIoWorld : World := worldWith [true] 0 (encodeReply (replyHdr 1 (-2) 0))

/-- A world whose connection breaks after 10 bytes of the reply header. -/
def brokenWorld : World := worldWith [true] 0 ((encodeReply (replyHdr 1 0 0)).take 10)

/-- The spec's "the request header and body are completely sent", read
literally: the bytes written are the header followed by as many body bytes as
the header announces. -/
def RequestFullySent (H : SockoptH) (msg : dpvs_sock_msg) (before after : Chan) : Prop :=
  ∃ body : List Byte, body.length = msg.len ∧ after.sent = before.sent ++ H.encodeMsg msg ++ body

/-- A world whose server accepts a `set` and answers with version 1, error code
0 and the 3-byte body 9, 8, 7. -/
def setBodyWorld : World :=
  worldWith [true, true] 0 (encodeReply (replyHdr 1 0 3) ++ [9, 8, 7])

/-- The world `setBodyWorld` with the connection breaking after two of the three
reply body bytes. -/
def setShortBodyWorld : World :=
  worldWith [true, true] 0 (encodeReply (replyHdr 1 0 3) ++ [9, 8])

/-! ## Integer conversions -/

theorem toInt32_of_lt (n : Nat) (h : n < 2147483648) : toInt32 (n : Int) = (n : Int) := by
  unfold toInt32
  have h1 : ((n : Int) % 4294967296).toNat = n := by omega
  simp only [h1, if_pos h]

theorem toSizeT_natCast (n : Nat) (h : n < 18446744073709551616) : toSizeT (n : Int) = n := by
  unfold toSizeT
  omega

theorem toInt32_neg_one : toInt32 (-1) = -1 := by decide

theorem toInt32_replySize (H : SockoptH) : toInt32 (H.replySize : Int) = H.replySize :=
  toInt32_of_lt _ H.replySize_lt

theorem toSizeT_replySize (H : SockoptH) : toSizeT (H.replySize : Int) = H.replySize :=
  toSizeT_natCast _ (lt_trans H.replySize_lt (by decide))

theorem toInt32_msgSize (H : SockoptH) : toInt32 (H.msgSize : Int) = H.msgSize :=
  toInt32_of_lt _ H.msgSize_lt

theorem toSizeT_msgSize (H : SockoptH) : toSizeT (H.msgSize : Int) = H.msgSize :=
  toSizeT_natCast _ (lt_trans H.msgSize_lt (by decide))

/-! ## The primitives -/

theorem readn_full (ch : Chan) (n : Nat) (h : n ≤ ch.input.length) :
    readn ch n = { ret := (n : Int), data := ch.input.take n,
                   chan := { ch with input := ch.input.drop n, consumed := ch.consumed + n } } := by
  simp [readn, h]

theorem readn_short (ch : Chan) (n : Nat) (h : ch.input.length < n) :
    readn ch n = { ret := if ch.inputErr then -1 else (ch.input.length : Int), data := ch.input,
                   chan := { ch with input := [], consumed := ch.consumed + ch.input.length } } := by
  simp [readn, Nat.not_le.mpr h]

/-- The header stage of `sockopt_msg_recv` when the header arrives in full. -/
theorem recv_errcode (H : SockoptH) (ch : Chan) (hp : Heap) (slot : dpvs_sock_msg_reply)
    (out : Option Ptr) (out_len : Option Nat)
    (hfull : HeaderArrives H ch) (herr : (replyOf H ch).errcode ≠ 0) :
    sockopt_msg_recv H ch hp (some slot) out out_len =
      { ret := (replyOf H ch).errcode, reply_hdr := some (replyOf H ch),
        out := out.map (fun _ => none), out_len := out_len.map (fun _ => 0),
        chan := { ch with input := ch.input.drop H.replySize,
                          consumed := ch.consumed + H.replySize },
        heap := hp } := by
  unfold HeaderArrives at hfull
  unfold replyOf at herr
  simp [sockopt_msg_recv, toInt32_replySize, toSizeT_replySize, readn_full, hfull, replyOf, herr]

theorem recv_short_hdr (H : SockoptH) (ch : Chan) (hp : Heap) (slot : dpvs_sock_msg_reply)
    (out : Option Ptr) (out_len : Option Nat)
    (hshort : ¬ HeaderArrives H ch) :
    (sockopt_msg_recv H ch hp (some slot) out out_len).ret = - H.ESOCKOPT_IO := by
  unfold HeaderArrives at hshort
  have h1 : ch.input.length < H.replySize := by omega
  have h2 := H.replySize_lt
  have h3 : (H.replySize : Int) ≠ toInt32 (if ch.inputErr then -1 else (ch.input.length : Int)) := by
    split
    · rw [toInt32_neg_one]; omega
    · rw [toInt32_of_lt _ (by omega)]; omega
  simp [sockopt_msg_recv, toInt32_replySize, toSizeT_replySize, readn_short, h1, h3]

/-! ## `sockopt_msg_recv`, case by case -/

theorem malloc_ok (hp : Heap) (n : Nat) (rest : List Bool) (h : hp.plan = true :: rest) :
    malloc hp n = (some hp.next,
      { plan := rest, next := hp.next + 1,
        cells := { addr := hp.next, size := n, data := [] } :: hp.cells,
        freed := hp.freed }) := by
  simp [malloc, h]

theorem malloc_fail (hp : Heap) (n : Nat) (h : hp.plan.head? ≠ some true) :
    (malloc hp n).1 = none := by
  unfold malloc
  split <;> simp_all

/-- No body announced: nothing is allocated or read after the header. -/
theorem recv_no_body (H : SockoptH) (ch : Chan) (hp : Heap) (slot : dpvs_sock_msg_reply)
    (out : Option Ptr) (out_len : Option Nat)
    (hfull : HeaderArrives H ch) (herr : (replyOf H ch).errcode = 0)
    (hlen : (replyOf H ch).len = 0) :
    sockopt_msg_recv H ch hp (some slot) out out_len =
      if H.SOCKOPT_VERSION ≠ (replyOf H ch).version then
        { ret := - H.ESOCKOPT_VERSION, reply_hdr := some (replyOf H ch),
          out := out.map (fun _ => none), out_len := out_len.map (fun _ => 0),
          chan := afterHdr H ch, heap := hp }
      else if out.isSome ∧ out_len.isSome then
        { ret := H.ESOCKOPT_OK, reply_hdr := some (replyOf H ch),
          out := some none, out_len := some 0, chan := afterHdr H ch, heap := hp }
      else
        { ret := H.ESOCKOPT_OK, reply_hdr := some (replyOf H ch),
          out := out.map (fun _ => none), out_len := out_len.map (fun _ => 0),
          chan := afterHdr H ch, heap := hp } := by
  unfold HeaderArrives at hfull
  unfold replyOf at herr hlen
  simp [sockopt_msg_recv, toInt32_replySize, toSizeT_replySize, readn_full, hfull, replyOf,
    herr, hlen, afterHdr]

/-- The body allocation fails. -/
theorem recv_nomem (H : SockoptH) (ch : Chan) (hp : Heap) (slot : dpvs_sock_msg_reply)
    (out : Option Ptr) (out_len : Option Nat)
    (hfull : HeaderArrives H ch) (herr : (replyOf H ch).errcode = 0)
    (hlen : 0 < (replyOf H ch).len) (hplan : hp.plan.head? ≠ some true) :
    sockopt_msg_recv H ch hp (some slot) out out_len =
      { ret := - H.ESOCKOPT_NOMEM, reply_hdr := some (replyOf H ch),
        out := out.map (fun _ => none), out_len := out_len.map (fun _ => 0),
        chan := afterHdr H ch, heap := (malloc hp (replyOf H ch).len).2 } := by
  unfold HeaderArrives at hfull
  unfold replyOf at herr hlen
  have hm := malloc_fail hp (H.decodeReply (List.take H.replySize ch.input)).len hplan
  simp [sockopt_msg_recv, toInt32_replySize, toSizeT_replySize, readn_full, hfull, replyOf,
    herr, hlen, afterHdr, hm]

/-- The body buffer is allocated: the four ways the call can end. -/
theorem recv_alloc (H : SockoptH) (ch : Chan) (hp : Heap) (slot : dpvs_sock_msg_reply)
    (out : Option Ptr) (out_len : Option Nat) (rest : List Bool)
    (hfull : HeaderArrives H ch) (herr : (replyOf H ch).errcode = 0)
    (hlen : 0 < (replyOf H ch).len) (hplan : hp.plan = true :: rest) :
    sockopt_msg_recv H ch hp (some slot) out out_len =
      let r2 := readn (afterHdr H ch) (replyOf H ch).len
      let hp2 := heapWithBody hp rest (replyOf H ch).len r2.data
      if toSizeT (toInt32 r2.ret) ≠ (replyOf H ch).len then
        { ret := - H.ESOCKOPT_IO, reply_hdr := some (replyOf H ch),
          out := out.map (fun _ => none), out_len := out_len.map (fun _ => 0),
          chan := r2.chan, heap := free hp2 (some hp.next) }
      else if H.SOCKOPT_VERSION ≠ (replyOf H ch).version then
        { ret := - H.ESOCKOPT_VERSION, reply_hdr := some (replyOf H ch),
          out := out.map (fun _ => none), out_len := out_len.map (fun _ => 0),
          chan := r2.chan, heap := free hp2 (some hp.next) }
      else if out.isSome ∧ out_len.isSome then
        { ret := H.ESOCKOPT_OK, reply_hdr := some (replyOf H ch),
          out := some (some hp.next), out_len := some (replyOf H ch).len,
          chan := r2.chan, heap := hp2 }
      else
        { ret := H.ESOCKOPT_OK, reply_hdr := some (replyOf H ch),
          out := out.map (fun _ => none), out_len := out_len.map (fun _ => 0),
          chan := r2.chan, heap := free hp2 (some hp.next) } := by
  unfold HeaderArrives at hfull
  unfold replyOf at herr hlen
  have hm := malloc_ok hp (H.decodeReply (List.take H.replySize ch.input)).len rest hplan
  simp only [sockopt_msg_recv, toInt32_replySize, toSizeT_replySize, readn_full _ _ hfull,
    replyOf, afterHdr, hm, heapWithBody]
  simp [hfull, herr, hlen]
  split_ifs <;> simp_all
  constructor
  · cases out <;> rfl
  · cases out_len <;> rfl

/-! ## `sockopt_msg_send` -/

theorem sendn_input (ch : Chan) (buf : List Byte) (n : Nat) :
    (sendn ch buf n).2.input = ch.input ∧ (sendn ch buf n).2.inputErr = ch.inputErr ∧
    (sendn ch buf n).2.consumed = ch.consumed := by
  unfold sendn
  split <;> exact ⟨rfl, rfl, rfl⟩

/-- Sending never touches the receiving side of the socket. -/
theorem send_input (H : SockoptH) (ch : Chan) (hdr : Option dpvs_sock_msg)
    (data : Option (List Byte)) (data_len : Int) :
    (sockopt_msg_send H ch hdr data data_len).2.input = ch.input ∧
    (sockopt_msg_send H ch hdr data data_len).2.inputErr = ch.inputErr ∧
    (sockopt_msg_send H ch hdr data data_len).2.consumed = ch.consumed := by
  unfold sockopt_msg_send
  cases hdr with
  | none => exact ⟨rfl, rfl, rfl⟩
  | some h =>
    have e1 := sendn_input ch (H.encodeMsg h) (toSizeT (toInt32 H.msgSize))
    cases data with
    | none =>
      simp only []
      split_ifs <;> simpa using e1
    | some d =>
      have e2 := sendn_input (sendn ch (H.encodeMsg h) (toSizeT (toInt32 H.msgSize))).2 d
        (toSizeT data_len)
      simp only []
      split_ifs <;> simp only [e2.1, e2.2.1, e2.2.2, e1.1, e1.2.1, e1.2.2, and_self]

theorem headerArrives_send (H : SockoptH) (ch : Chan) (hdr : Option dpvs_sock_msg)
    (data : Option (List Byte)) (data_len : Int) :
    HeaderArrives H (sockopt_msg_send H ch hdr data data_len).2 ↔ HeaderArrives H ch := by
  unfold HeaderArrives
  rw [(send_input H ch hdr data data_len).1]

theorem replyOf_send (H : SockoptH) (ch : Chan) (hdr : Option dpvs_sock_msg)
    (data : Option (List Byte)) (data_len : Int) :
    replyOf H (sockopt_msg_send H ch hdr data data_len).2 = replyOf H ch := by
  unfold replyOf
  rw [(send_input H ch hdr data data_len).1]

/-- A send phase that reports success has written the header and then the
caller's body, when `in_len` fits an `int`. -/
theorem send_ok_sent (H : SockoptH) (ch : Chan) (m : dpvs_sock_msg)
    (inp : Option (List Byte)) (in_len : Nat)
    (hIo : H.ESOCKOPT_IO ≠ 0) (hlen : in_len < 2147483648)
    (hok : (sockopt_msg_send H ch (some m) inp (toInt32 in_len)).1 = 0) :
    (sockopt_msg_send H ch (some m) inp (toInt32 in_len)).2.sent
      = ch.sent ++ H.encodeMsg m ++ requestBody inp in_len := by
  have hl := H.encodeMsg_length m
  have hm := H.msgSize_lt
  rw [toInt32_of_lt _ hlen] at hok ⊢
  unfold sockopt_msg_send at hok ⊢
  simp only [toInt32_msgSize, toSizeT_msgSize] at hok ⊢
  unfold sendn at hok ⊢
  by_cases h1 : H.msgSize ≤ (H.encodeMsg m).length ∧ H.msgSize ≤ ch.room
  · simp only [h1, and_self, if_true, toInt32_msgSize, ne_eq, not_true, if_false] at hok ⊢
    cases inp with
    | none => simp [requestBody, ← hl]
    | some d =>
      simp only [requestBody] at hok ⊢
      by_cases h0 : in_len = 0
      · subst h0; simp [← hl]
      · have h0' : (in_len : Int) ≠ 0 := by omega
        simp only [h0', ne_eq, not_false_eq_true, if_true,
          toSizeT_natCast in_len (by omega)] at hok ⊢
        by_cases h2 : in_len ≤ d.length ∧ in_len ≤ ch.room - H.msgSize
        · simp only [h2, and_self, if_true, toInt32_of_lt _ hlen] at hok ⊢
          simp [← hl]
        · simp only [h2, if_false, toInt32_neg_one] at hok
          have : (in_len : Int) ≠ -1 := by omega
          simp [this, hIo] at hok
  · simp only [h1, if_false, toInt32_neg_one] at hok
    have : (H.msgSize : Int) ≠ -1 := by omega
    simp [this, hIo] at hok

/-! ## The two entry points once connected -/

/-- Source `dpvs_setsockopt` from line 139 on, when allocation and connection succeeded. -/
theorem set_connected (H : SockoptH) (w : World) (cmd : Int) (inp : Option (List Byte))
    (in_len : Nat) (hc : Connects H w) :
    dpvs_setsockopt H w cmd inp in_len =
      let sd := sockopt_msg_send H w.chan (some (setMsg H cmd in_len)) inp (toInt32 in_len)
      let hp2 := heapAfterSend H w.heap (H.encodeMsg (setMsg H cmd in_len))
      if sd.1 ≠ 0 then (sd.1, { heap := hp2, fds := fdsAfterClose w.fds, chan := sd.2 })
      else
        let r := sockopt_msg_recv H sd.2 hp2 (some blankReply) none none
        let w2 : World := { heap := r.heap, fds := fdsAfterClose w.fds, chan := r.chan }
        if r.ret ≠ 0 then (r.ret, w2)
        else
          match r.reply_hdr with
          | some hdr => if hdr.errcode ≠ 0 then (hdr.errcode, w2) else (H.ESOCKOPT_OK, w2)
          | none => (H.ESOCKOPT_OK, w2) := by
  obtain ⟨hm, hcn⟩ := hc
  obtain ⟨a, ha⟩ := Option.isSome_iff_exists.mp hm
  have hcn' : ¬ (-1 = connect (socket w.fds).2 (socket w.fds).1) := fun h => hcn h.symm
  simp only [dpvs_setsockopt, ha, hcn', if_false, heapAfterSend, fdsAfterClose, setMsg, blankReply]

/-- Source `dpvs_getsockopt` from line 207 on, when allocation and connection succeeded. -/
theorem get_connected (H : SockoptH) (w : World) (cmd : Int) (inp : Option (List Byte))
    (in_len : Nat) (o : Ptr) (ol : Nat) (hc : Connects H w) :
    dpvs_getsockopt H w cmd inp in_len (some o) (some ol) =
      let sd := sockopt_msg_send H w.chan (some (getMsg H cmd in_len)) inp (toInt32 in_len)
      let hp2 := heapAfterSend H w.heap (H.encodeMsg (getMsg H cmd in_len))
      if sd.1 ≠ 0 then
        { ret := sd.1, out := some none, out_len := some 0,
          world := { heap := hp2, fds := fdsAfterClose w.fds, chan := sd.2 } }
      else
        let r := sockopt_msg_recv H sd.2 hp2 (some blankReply) (some none) (some 0)
        let w2 : World := { heap := r.heap, fds := fdsAfterClose w.fds, chan := r.chan }
        if r.ret ≠ 0 then { ret := r.ret, out := r.out, out_len := r.out_len, world := w2 }
        else
          match r.reply_hdr with
          | some hdr =>
            if hdr.errcode ≠ 0 then
              { ret := hdr.errcode, out := r.out, out_len := r.out_len, world := w2 }
            else { ret := H.ESOCKOPT_OK, out := r.out, out_len := r.out_len, world := w2 }
          | none => { ret := H.ESOCKOPT_OK, out := r.out, out_len := r.out_len, world := w2 } := by
  obtain ⟨hm, hcn⟩ := hc
  obtain ⟨a, ha⟩ := Option.isSome_iff_exists.mp hm
  have hcn' : ¬ (-1 = connect (socket w.fds).2 (socket w.fds).1) := fun h => hcn h.symm
  simp only [dpvs_getsockopt, ha, hcn', if_false, heapAfterSend, fdsAfterClose, getMsg, blankReply,
    Option.isNone_some, Bool.false_eq_true, or_self]

/-- C1. A reply header, received in full, whose `error_code` is nonzero,
whatever its `body_length` and `version`: `sockopt_msg_recv` returns exactly
that `error_code`, leaves each output slot the caller supplied at "no data"
(`NULL`, 0), allocates nothing and reads nothing after the header; and
therefore `dpvs_getsockopt`, once connected and past its send phase, returns
that same `error_code` with `*out = NULL` and `*out_len = 0`. -/
theorem C1_server_error_no_body (H : SockoptH) (ch : Chan)
    (hfull : HeaderArrives H ch) (herr : (replyOf H ch).errcode ≠ 0) :
    (∀ (hp : Heap) (slot : dpvs_sock_msg_reply) (out : Option Ptr) (out_len : Option Nat),
      (sockopt_msg_recv H ch hp (some slot) out out_len).ret = (replyOf H ch).errcode
      ∧ (sockopt_msg_recv H ch hp (some slot) out out_len).out = out.map (fun _ => none)
      ∧ (sockopt_msg_recv H ch hp (some slot) out out_len).out_len = out_len.map (fun _ => 0)
      ∧ (sockopt_msg_recv H ch hp (some slot) out out_len).heap = hp
      ∧ (sockopt_msg_recv H ch hp (some slot) out out_len).chan.consumed
          = ch.consumed + H.replySize)
    ∧ (∀ (w : World) (cmd : Int) (inp : Option (List Byte)) (in_len : Nat) (o : Ptr) (ol : Nat),
      w.chan = ch → Connects H w → SendOk H w (getMsg H cmd in_len) inp in_len →
      (dpvs_getsockopt H w cmd inp in_len (some o) (some ol)).ret = (replyOf H ch).errcode
      ∧ (dpvs_getsockopt H w cmd inp in_len (some o) (some ol)).out = some none
      ∧ (dpvs_getsockopt H w cmd inp in_len (some o) (some ol)).out_len = some 0) := by
  refine ⟨?_, ?_⟩
  · intro hp slot out out_len
    rw [recv_errcode H ch hp slot out out_len hfull herr]
    exact ⟨rfl, rfl, rfl, rfl, rfl⟩
  · intro w cmd inp in_len o ol hw hc hs
    subst hw
    have hs' : (sockopt_msg_send H w.chan (some (getMsg H cmd in_len)) inp (toInt32 in_len)).1
        = 0 := hs
    have hfull' := (headerArrives_send H w.chan (some (getMsg H cmd in_len)) inp
      (toInt32 in_len)).mpr hfull
    have hrep := replyOf_send H w.chan (some (getMsg H cmd in_len)) inp (toInt32 in_len)
    have herr' : (replyOf H (sockopt_msg_send H w.chan (some (getMsg H cmd in_len)) inp
      (toInt32 in_len)).2).errcode ≠ 0 := by rw [hrep]; exact herr
    rw [get_connected H w cmd inp in_len o ol hc]
    simp only [hs', ne_eq, not_true_eq_false, if_false,
      recv_errcode H _ _ blankReply (some none) (some 0) hfull' herr', hrep, herr,
      not_false_eq_true, if_true, Option.map_some', and_self]

/-- C1, at a concrete input: the server answers a `get` with error code 42, a
foreign version and a 12-byte body; the caller gets 42 and no body. -/
theorem C1_server_error_no_body_witness :
    (replyOf specH rejectWorld.chan).errcode = 42
    ∧ (replyOf specH rejectWorld.chan).len = 12
    ∧ (dpvs_getsockopt specH rejectWorld 3 none 0 (some none) (some 0)).ret = 42
    ∧ (dpvs_getsockopt specH rejectWorld 3 none 0 (some none) (some 0)).out = some none
    ∧ (dpvs_getsockopt specH rejectWorld 3 none 0 (some none) (some 0)).out_len = some 0 :=
  have h := (C1_server_error_no_body specH rejectWorld.chan (by decide) (by decide)).2
    rejectWorld 3 none 0 none 0 rfl (by decide) (by decide)
  ⟨by decide, by decide, h.1.trans (by decide), h.2.1, h.2.2⟩

theorem plan_of_head (hp : Heap) (h : hp.plan.head? = some true) :
    ∃ rest, hp.plan = true :: rest := by
  cases hpl : hp.plan with
  | nil => simp [hpl] at h
  | cons b rest =>
    simp only [hpl, List.head?_cons, Option.some.injEq] at h
    exact ⟨rest, by rw [h]⟩

theorem toSizeT_toInt32_of_lt (n : Nat) (h : n < 2147483648) :
    toSizeT (toInt32 (n : Int)) = n := by
  rw [toInt32_of_lt n h, toSizeT_natCast n (by omega)]

theorem afterHdr_input_length (H : SockoptH) (ch : Chan) :
    (afterHdr H ch).input.length = ch.input.length - H.replySize := by
  simp [afterHdr]

/-- The body, when it arrives in full, is read in full. -/
theorem readn_body (H : SockoptH) (ch : Chan) (n : Nat)
    (hbody : H.replySize + n ≤ ch.input.length) :
    readn (afterHdr H ch) n =
      { ret := (n : Int), data := bodyOf H ch n,
        chan := { ch with input := ch.input.drop (H.replySize + n),
                          consumed := ch.consumed + H.replySize + n } } := by
  rw [readn_full _ _ (by rw [afterHdr_input_length]; omega)]
  simp [afterHdr, bodyOf, Nat.add_comm]

/-- A reply of a foreign version, error code 0, whose body is allocated and
arrives in full and is shorter than 2^31 bytes: the status is
`-ESOCKOPT_VERSION`, header and body are consumed, the slots stay cleared and
the buffer, if one was allocated, is freed. -/
theorem recv_mismatch (H : SockoptH) (ch : Chan) (hp : Heap) (slot : dpvs_sock_msg_reply)
    (out : Option Ptr) (out_len : Option Nat)
    (hfull : HeaderArrives H ch) (herr : (replyOf H ch).errcode = 0)
    (hver : (replyOf H ch).version ≠ H.SOCKOPT_VERSION)
    (hlen : (replyOf H ch).len < 2147483648)
    (hbody : H.replySize + (replyOf H ch).len ≤ ch.input.length)
    (halloc : 0 < (replyOf H ch).len → hp.plan.head? = some true) :
    (sockopt_msg_recv H ch hp (some slot) out out_len).ret = - H.ESOCKOPT_VERSION
    ∧ (sockopt_msg_recv H ch hp (some slot) out out_len).chan.consumed
        = ch.consumed + H.replySize + (replyOf H ch).len
    ∧ (sockopt_msg_recv H ch hp (some slot) out out_len).out = out.map (fun _ => none)
    ∧ (sockopt_msg_recv H ch hp (some slot) out out_len).out_len = out_len.map (fun _ => 0)
    ∧ (0 < (replyOf H ch).len →
        (sockopt_msg_recv H ch hp (some slot) out out_len).heap.freed = hp.next :: hp.freed) := by
  have hver' : H.SOCKOPT_VERSION ≠ (replyOf H ch).version := fun h => hver h.symm
  by_cases h0 : (replyOf H ch).len = 0
  · rw [recv_no_body H ch hp slot out out_len hfull herr h0, if_pos hver']
    simp [afterHdr, h0]
  · have hpos : 0 < (replyOf H ch).len := Nat.pos_of_ne_zero h0
    obtain ⟨rest, hplan⟩ := plan_of_head hp (halloc hpos)
    rw [recv_alloc H ch hp slot out out_len rest hfull herr hpos hplan]
    simp only [readn_body H ch _ hbody, toSizeT_toInt32_of_lt _ hlen, ne_eq, not_true_eq_false,
      if_false, hver', not_false_eq_true, if_true]
    simp [free, heapWithBody, store]

/-- A body of 2^31 bytes or more, although allocated and delivered in full,
is reported as a receive failure: the byte count does not survive its passage
through the `int` variable `res` (line 80-81). -/
theorem recv_wide_body (H : SockoptH) (ch : Chan) (hp : Heap) (slot : dpvs_sock_msg_reply)
    (out : Option Ptr) (out_len : Option Nat) (rest : List Bool)
    (hfull : HeaderArrives H ch) (herr : (replyOf H ch).errcode = 0)
    (hplan : hp.plan = true :: rest)
    (hbody : H.replySize + (replyOf H ch).len ≤ ch.input.length)
    (hwide : toSizeT (toInt32 ((replyOf H ch).len : Int)) ≠ (replyOf H ch).len) :
    (sockopt_msg_recv H ch hp (some slot) out out_len).ret = - H.ESOCKOPT_IO
    ∧ (sockopt_msg_recv H ch hp (some slot) out out_len).chan.consumed
        = ch.consumed + H.replySize + (replyOf H ch).len
    ∧ (sockopt_msg_recv H ch hp (some slot) out out_len).heap.freed = hp.next :: hp.freed := by
  have hpos : 0 < (replyOf H ch).len := by
    rcases Nat.eq_zero_or_pos (replyOf H ch).len with h0 | h0
    · rw [h0] at hwide; exact absurd (by decide) hwide
    · exact h0
  rw [recv_alloc H ch hp slot out out_len rest hfull herr hpos hplan]
  simp only [readn_body H ch _ hbody, ne_eq, hwide, not_false_eq_true, if_true]
  simp [free, heapWithBody, store]

theorem wideReplyChan_length : wideReplyChan.input.length = 84 + 2147483648 := by
  have h : (encodeReply (replyHdr 2 0 2147483648)).length = 84 := by decide
  simp only [wideReplyChan, chanWith, List.length_append, List.length_replicate, h]

theorem wideReplyChan_reply : replyOf specH wideReplyChan = replyHdr 2 0 2147483648 := by
  have h : (encodeReply (replyHdr 2 0 2147483648)).length = specH.replySize := by decide
  have h2 : specH.decodeReply (encodeReply (replyHdr 2 0 2147483648))
      = replyHdr 2 0 2147483648 := by decide
  simp only [replyOf, wideReplyChan, chanWith, List.take_left' h, h2]

/-- C2, at the failing input. The reply header arrives in full with error code
0, version 2 (the client's is 1) and `body_length = 2^31`; the body buffer is
allocated and all 2^31 body bytes are delivered.  The specified status is
`-ESOCKOPT_VERSION`; `sockopt_msg_recv` returns `-ESOCKOPT_IO` (having consumed
header and body and freed the buffer), because the count returned by `readn`
is stored in the `int` `res` before it is compared with `reply_hdr->len`. -/
theorem C2_wide_body_reported_as_io :
    HeaderArrives specH wideReplyChan
    ∧ (replyOf specH wideReplyChan).errcode = 0
    ∧ (replyOf specH wideReplyChan).version ≠ specH.SOCKOPT_VERSION
    ∧ (replyOf specH wideReplyChan).len = 2147483648
    ∧ specH.replySize + (replyOf specH wideReplyChan).len ≤ wideReplyChan.input.length
    ∧ (malloc (heapWith [true]) 2147483648).1 = some 100
    ∧ (sockopt_msg_recv specH wideReplyChan (heapWith [true]) (some blankReply) none none).ret
        = - specH.ESOCKOPT_IO
    ∧ (sockopt_msg_recv specH wideReplyChan (heapWith [true]) (some blankReply) none none).ret
        ≠ - specH.ESOCKOPT_VERSION
    ∧ (sockopt_msg_recv specH wideReplyChan (heapWith [true]) (some blankReply)
        none none).chan.consumed = 84 + 2147483648 := by
  have hfull : HeaderArrives specH wideReplyChan := by
    unfold HeaderArrives
    rw [wideReplyChan_length]
    decide
  have hbody : specH.replySize + (replyOf specH wideReplyChan).len
      ≤ wideReplyChan.input.length := by
    rw [wideReplyChan_length, wideReplyChan_reply]
    decide
  have herr : (replyOf specH wideReplyChan).errcode = 0 := by rw [wideReplyChan_reply]; rfl
  have hwide : toSizeT (toInt32 ((replyOf specH wideReplyChan).len : Int))
      ≠ (replyOf specH wideReplyChan).len := by
    rw [wideReplyChan_reply]
    decide
  have h := recv_wide_body specH wideReplyChan (heapWith [true]) blankReply none none []
    hfull herr rfl hbody hwide
  refine ⟨hfull, herr, ?_, ?_, hbody, rfl, h.1, ?_, ?_⟩
  · rw [wideReplyChan_reply]; decide
  · rw [wideReplyChan_reply]; rfl
  · rw [h.1]; decide
  · rw [h.2.1, wideReplyChan_reply]; rfl

/-! ## The heap and the socket across the send phase -/

theorem filter_map_setData (a : Nat) (bytes : List Byte) (l : List Buffer) :
    (l.map (fun c => if c.addr = a then { c with data := bytes } else c)).filter
        (fun c => c.addr ≠ a)
      = l.filter (fun c => c.addr ≠ a) := by
  induction l with
  | nil => rfl
  | cons c l ih =>
    by_cases h : c.addr = a
    · simpa [h] using ih
    · simpa [h] using ih

theorem plan_of_connects (H : SockoptH) (w : World) (hc : Connects H w) :
    ∃ rest, w.heap.plan = true :: rest := by
  obtain ⟨hm, _⟩ := hc
  unfold malloc at hm
  split at hm
  · next rest h => exact ⟨rest, h⟩
  · simp at hm
  · simp at hm

/-- The heap after the request header was allocated, filled and freed. -/
theorem heapAfterSend_eq (H : SockoptH) (hp : Heap) (bytes : List Byte) (rest : List Bool)
    (h : hp.plan = true :: rest) :
    heapAfterSend H hp bytes =
      { plan := rest, next := hp.next + 1,
        cells := hp.cells.filter (fun c => c.addr ≠ hp.next),
        freed := hp.next :: hp.freed } := by
  have hf := filter_map_setData hp.next bytes hp.cells
  simp only [heapAfterSend, malloc_ok hp H.msgSize rest h, store, free, List.map_cons,
    if_true, List.filter_cons, ne_eq, not_true_eq_false, decide_False, Bool.false_eq_true,
    if_false]
  simp only [ne_eq] at hf
  rw [hf]

theorem sendn_fst (ch : Chan) (b : List Byte) (n : Nat) :
    (sendn ch b n).1 = if n ≤ b.length ∧ n ≤ ch.room then (n : Int) else -1 := by
  unfold sendn
  split <;> rfl

theorem sendn_room (ch : Chan) (b : List Byte) (n : Nat) :
    (sendn ch b n).2.room
      = if n ≤ b.length ∧ n ≤ ch.room then ch.room - n
        else ch.room - min (min n ch.room) b.length := by
  unfold sendn
  split <;> rfl

/-- The status of the send phase does not depend on the header's contents. -/
theorem send_status_indep (H : SockoptH) (ch : Chan) (m1 m2 : dpvs_sock_msg)
    (inp : Option (List Byte)) (dl : Int) :
    (sockopt_msg_send H ch (some m1) inp dl).1 = (sockopt_msg_send H ch (some m2) inp dl).1 := by
  have e1 : (sendn ch (H.encodeMsg m1) (toSizeT (toInt32 H.msgSize))).1
      = (sendn ch (H.encodeMsg m2) (toSizeT (toInt32 H.msgSize))).1 := by
    rw [sendn_fst, sendn_fst, H.encodeMsg_length, H.encodeMsg_length]
  have e2 : (sendn ch (H.encodeMsg m1) (toSizeT (toInt32 H.msgSize))).2.room
      = (sendn ch (H.encodeMsg m2) (toSizeT (toInt32 H.msgSize))).2.room := by
    rw [sendn_room, sendn_room, H.encodeMsg_length, H.encodeMsg_length]
  unfold sockopt_msg_send
  simp only []
  rw [e1]
  by_cases hc : toInt32 ↑H.msgSize
      ≠ toInt32 (sendn ch (H.encodeMsg m2) (toSizeT (toInt32 ↑H.msgSize))).1
  · rw [if_pos hc, if_pos hc]
  · rw [if_neg hc, if_neg hc]
    cases inp with
    | none => rfl
    | some d =>
      simp only []
      by_cases h0 : dl ≠ 0
      · rw [if_pos h0, if_pos h0]
        have e3 : (sendn (sendn ch (H.encodeMsg m1) (toSizeT (toInt32 H.msgSize))).2 d
              (toSizeT dl)).1
            = (sendn (sendn ch (H.encodeMsg m2) (toSizeT (toInt32 H.msgSize))).2 d
              (toSizeT dl)).1 := by
          rw [sendn_fst, sendn_fst, e2]
        rw [e3]
        by_cases h1 : dl ≠ toInt32 (sendn (sendn ch (H.encodeMsg m2)
            (toSizeT (toInt32 H.msgSize))).2 d (toSizeT dl)).1
        · rw [if_pos h1, if_pos h1]
        · rw [if_neg h1, if_neg h1]
      · rw [if_neg h0, if_neg h0]

theorem sendOk_indep (H : SockoptH) (w : World) (m1 m2 : dpvs_sock_msg)
    (inp : Option (List Byte)) (in_len : Nat) (h : SendOk H w m1 inp in_len) :
    SendOk H w m2 inp in_len := by
  unfold SendOk at h ⊢
  rw [send_status_indep H w.chan m2 m1]
  exact h

/-- Source `dpvs_setsockopt` from line 154 on, when the send phase reported success. -/
theorem set_after_send (H : SockoptH) (w : World) (cmd : Int) (inp : Option (List Byte))
    (in_len : Nat) (hc : Connects H w) (hs : SendOk H w (setMsg H cmd in_len) inp in_len) :
    dpvs_setsockopt H w cmd inp in_len =
      let r := sockopt_msg_recv H
        (sockopt_msg_send H w.chan (some (setMsg H cmd in_len)) inp (toInt32 in_len)).2
        (heapAfterSend H w.heap (H.encodeMsg (setMsg H cmd in_len))) (some blankReply) none none
      let w2 : World := { heap := r.heap, fds := fdsAfterClose w.fds, chan := r.chan }
      if r.ret ≠ 0 then (r.ret, w2)
      else
        match r.reply_hdr with
        | some hdr => if hdr.errcode ≠ 0 then (hdr.errcode, w2) else (H.ESOCKOPT_OK, w2)
        | none => (H.ESOCKOPT_OK, w2) := by
  have hs' : (sockopt_msg_send H w.chan (some (setMsg H cmd in_len)) inp (toInt32 in_len)).1
      = 0 := hs
  rw [set_connected H w cmd inp in_len hc]
  simp only [hs', ne_eq, not_true_eq_false, if_false]

/-- Source `dpvs_getsockopt` from line 222 on, when the send phase reported success. -/
theorem get_after_send (H : SockoptH) (w : World) (cmd : Int) (inp : Option (List Byte))
    (in_len : Nat) (o : Ptr) (ol : Nat) (hc : Connects H w)
    (hs : SendOk H w (getMsg H cmd in_len) inp in_len) :
    dpvs_getsockopt H w cmd inp in_len (some o) (some ol) =
      let r := sockopt_msg_recv H
        (sockopt_msg_send H w.chan (some (getMsg H cmd in_len)) inp (toInt32 in_len)).2
        (heapAfterSend H w.heap (H.encodeMsg (getMsg H cmd in_len))) (some blankReply)
        (some none) (some 0)
      let w2 : World := { heap := r.heap, fds := fdsAfterClose w.fds, chan := r.chan }
      if r.ret ≠ 0 then { ret := r.ret, out := r.out, out_len := r.out_len, world := w2 }
      else
        match r.reply_hdr with
        | some hdr =>
          if hdr.errcode ≠ 0 then
            { ret := hdr.errcode, out := r.out, out_len := r.out_len, world := w2 }
          else { ret := H.ESOCKOPT_OK, out := r.out, out_len := r.out_len, world := w2 }
        | none => { ret := H.ESOCKOPT_OK, out := r.out, out_len := r.out_len, world := w2 } := by
  have hs' : (sockopt_msg_send H w.chan (some (getMsg H cmd in_len)) inp (toInt32 in_len)).1
      = 0 := hs
  rw [get_connected H w cmd inp in_len o ol hc]
  simp only [hs', ne_eq, not_true_eq_false, if_false]

/-- A server-reported error is the status of `dpvs_setsockopt`. -/
theorem set_errcode (H : SockoptH) (w : World) (cmd : Int) (inp : Option (List Byte))
    (in_len : Nat) (hc : Connects H w) (hs : SendOk H w (setMsg H cmd in_len) inp in_len)
    (hfull : HeaderArrives H w.chan) (herr : (replyOf H w.chan).errcode ≠ 0) :
    (dpvs_setsockopt H w cmd inp in_len).1 = (replyOf H w.chan).errcode := by
  have hfull' := (headerArrives_send H w.chan (some (setMsg H cmd in_len)) inp
    (toInt32 in_len)).mpr hfull
  have hrep := replyOf_send H w.chan (some (setMsg H cmd in_len)) inp (toInt32 in_len)
  have herr' : (replyOf H (sockopt_msg_send H w.chan (some (setMsg H cmd in_len)) inp
    (toInt32 in_len)).2).errcode ≠ 0 := by rw [hrep]; exact herr
  rw [set_after_send H w cmd inp in_len hc hs]
  simp only [recv_errcode H _ _ blankReply none none hfull' herr', hrep, herr, ne_eq,
    not_false_eq_true, if_true]

/-- A server-reported error is the status of `dpvs_getsockopt`. -/
theorem get_errcode (H : SockoptH) (w : World) (cmd : Int) (inp : Option (List Byte))
    (in_len : Nat) (o : Ptr) (ol : Nat) (hc : Connects H w)
    (hs : SendOk H w (getMsg H cmd in_len) inp in_len)
    (hfull : HeaderArrives H w.chan) (herr : (replyOf H w.chan).errcode ≠ 0) :
    (dpvs_getsockopt H w cmd inp in_len (some o) (some ol)).ret = (replyOf H w.chan).errcode := by
  have hfull' := (headerArrives_send H w.chan (some (getMsg H cmd in_len)) inp
    (toInt32 in_len)).mpr hfull
  have hrep := replyOf_send H w.chan (some (getMsg H cmd in_len)) inp (toInt32 in_len)
  have herr' : (replyOf H (sockopt_msg_send H w.chan (some (getMsg H cmd in_len)) inp
    (toInt32 in_len)).2).errcode ≠ 0 := by rw [hrep]; exact herr
  rw [get_after_send H w cmd inp in_len o ol hc hs]
  simp only [recv_errcode H _ _ blankReply (some none) (some 0) hfull' herr', hrep, herr, ne_eq,
    not_false_eq_true, if_true]

/-- Whatever nonzero status `sockopt_msg_recv` returns is the status of `dpvs_setsockopt`. -/
theorem set_of_recv_ret (H : SockoptH) (w : World) (cmd : Int) (inp : Option (List Byte))
    (in_len : Nat) (hc : Connects H w) (hs : SendOk H w (setMsg H cmd in_len) inp in_len)
    (z : Int) (hz : z ≠ 0)
    (hr : (sockopt_msg_recv H
        (sockopt_msg_send H w.chan (some (setMsg H cmd in_len)) inp (toInt32 in_len)).2
        (heapAfterSend H w.heap (H.encodeMsg (setMsg H cmd in_len))) (some blankReply)
        none none).ret = z) :
    (dpvs_setsockopt H w cmd inp in_len).1 = z := by
  rw [set_after_send H w cmd inp in_len hc hs]
  simp only [hr, ne_eq, hz, not_false_eq_true, if_true]

/-- Whatever nonzero status `sockopt_msg_recv` returns is the status of `dpvs_getsockopt`. -/
theorem get_of_recv_ret (H : SockoptH) (w : World) (cmd : Int) (inp : Option (List Byte))
    (in_len : Nat) (o : Ptr) (ol : Nat) (hc : Connects H w)
    (hs : SendOk H w (getMsg H cmd in_len) inp in_len)
    (z : Int) (hz : z ≠ 0)
    (hr : (sockopt_msg_recv H
        (sockopt_msg_send H w.chan (some (getMsg H cmd in_len)) inp (toInt32 in_len)).2
        (heapAfterSend H w.heap (H.encodeMsg (getMsg H cmd in_len))) (some blankReply)
        (some none) (some 0)).ret = z) :
    (dpvs_getsockopt H w cmd inp in_len (some o) (some ol)).ret = z := by
  rw [get_after_send H w cmd inp in_len o ol hc hs]
  simp only [hr, ne_eq, hz, not_false_eq_true, if_true]

theorem heapAfterSend_plan_head (H : SockoptH) (w : World) (bytes : List Byte)
    (hc : Connects H w) (h : w.heap.plan.tail.head? = some true) :
    (heapAfterSend H w.heap bytes).plan.head? = some true := by
  obtain ⟨rest, hplan⟩ := plan_of_connects H w hc
  rw [heapAfterSend_eq H w.heap bytes rest hplan]
  rw [hplan] at h
  exact h

/-- C3, as amended. A fully received reply header of a foreign version: when
its `error_code` is nonzero the call (`sockopt_msg_recv`, hence
`dpvs_setsockopt` and `dpvs_getsockopt`) returns that `error_code`, the version
not being examined; when its `error_code` is 0 and the body, shorter than 2^31
bytes, is allocated and arrives in full, the call returns `-ESOCKOPT_VERSION`. -/
theorem C3_version_checked_after_errcode (H : SockoptH) (ch : Chan)
    (hfull : HeaderArrives H ch) (hver : (replyOf H ch).version ≠ H.SOCKOPT_VERSION) :
    ((replyOf H ch).errcode ≠ 0 →
      (∀ (hp : Heap) (slot : dpvs_sock_msg_reply) (out : Option Ptr) (out_len : Option Nat),
        (sockopt_msg_recv H ch hp (some slot) out out_len).ret = (replyOf H ch).errcode)
      ∧ (∀ (w : World) (cmd : Int) (inp : Option (List Byte)) (in_len : Nat) (o : Ptr)
          (ol : Nat),
        w.chan = ch → Connects H w → SendOk H w (setMsg H cmd in_len) inp in_len →
        (dpvs_setsockopt H w cmd inp in_len).1 = (replyOf H ch).errcode
        ∧ (dpvs_getsockopt H w cmd inp in_len (some o) (some ol)).ret
            = (replyOf H ch).errcode))
    ∧ ((replyOf H ch).errcode = 0 → (replyOf H ch).len < 2147483648 →
        H.replySize + (replyOf H ch).len ≤ ch.input.length →
      (∀ (hp : Heap) (slot : dpvs_sock_msg_reply) (out : Option Ptr) (out_len : Option Nat),
        (0 < (replyOf H ch).len → hp.plan.head? = some true) →
        (sockopt_msg_recv H ch hp (some slot) out out_len).ret = - H.ESOCKOPT_VERSION)
      ∧ (∀ (w : World) (cmd : Int) (inp : Option (List Byte)) (in_len : Nat) (o : Ptr)
          (ol : Nat),
        w.chan = ch → Connects H w → SendOk H w (setMsg H cmd in_len) inp in_len →
        H.ESOCKOPT_VERSION ≠ 0 →
        (0 < (replyOf H ch).len → w.heap.plan.tail.head? = some true) →
        (dpvs_setsockopt H w cmd inp in_len).1 = - H.ESOCKOPT_VERSION
        ∧ (dpvs_getsockopt H w cmd inp in_len (some o) (some ol)).ret
            = - H.ESOCKOPT_VERSION)) := by
  refine ⟨fun herr => ⟨fun hp slot out out_len => ?_, ?_⟩,
    fun herr hlen hbody => ⟨fun hp slot out out_len halloc => ?_, ?_⟩⟩
  · rw [recv_errcode H ch hp slot out out_len hfull herr]
  · intro w cmd inp in_len o ol hw hc hs
    subst hw
    have hsg : SendOk H w (getMsg H cmd in_len) inp in_len :=
      sendOk_indep H w _ _ inp in_len hs
    exact ⟨set_errcode H w cmd inp in_len hc hs hfull herr,
      get_errcode H w cmd inp in_len o ol hc hsg hfull herr⟩
  · exact (recv_mismatch H ch hp slot out out_len hfull herr hver hlen hbody halloc).1
  · intro w cmd inp in_len o ol hw hc hs hV halloc
    subst hw
    have hsg : SendOk H w (getMsg H cmd in_len) inp in_len :=
      sendOk_indep H w _ _ inp in_len hs
    have hV' : - H.ESOCKOPT_VERSION ≠ 0 := by omega
    constructor
    · apply set_of_recv_ret H w cmd inp in_len hc hs _ hV'
      have hi := send_input H w.chan (some (setMsg H cmd in_len)) inp (toInt32 in_len)
      have hrep := replyOf_send H w.chan (some (setMsg H cmd in_len)) inp (toInt32 in_len)
      refine (recv_mismatch H _ _ blankReply none none
        ((headerArrives_send H w.chan _ inp _).mpr hfull) (by rw [hrep]; exact herr)
        (by rw [hrep]; exact hver) (by rw [hrep]; exact hlen) (by rw [hrep, hi.1]; exact hbody)
        (fun hpos => heapAfterSend_plan_head H w _ hc
          (halloc (by rw [hrep] at hpos; exact hpos)))).1
    · apply get_of_recv_ret H w cmd inp in_len o ol hc hsg _ hV'
      have hi := send_input H w.chan (some (getMsg H cmd in_len)) inp (toInt32 in_len)
      have hrep := replyOf_send H w.chan (some (getMsg H cmd in_len)) inp (toInt32 in_len)
      refine (recv_mismatch H _ _ blankReply (some none) (some 0)
        ((headerArrives_send H w.chan _ inp _).mpr hfull) (by rw [hrep]; exact herr)
        (by rw [hrep]; exact hver) (by rw [hrep]; exact hlen) (by rw [hrep, hi.1]; exact hbody)
        (fun hpos => heapAfterSend_plan_head H w _ hc
          (halloc (by rw [hrep] at hpos; exact hpos)))).1

/-- C3, at a concrete input: the server answers with a foreign version, error
code 0 and a 3-byte body that arrives; both entry points return
`-ESOCKOPT_VERSION`. -/
theorem C3_version_checked_after_errcode_witness :
    (replyOf specH mismatchWorld.chan).version = 2
    ∧ (replyOf specH mismatchWorld.chan).errcode = 0
    ∧ (dpvs_setsockopt specH mismatchWorld 7 none 0).1 = -4
    ∧ (dpvs_getsockopt specH mismatchWorld 7 none 0 (some none) (some 0)).ret = -4 :=
  have h := ((C3_version_checked_after_errcode specH mismatchWorld.chan
    (by decide) (by decide)).2 (by decide) (by decide) (by decide)).2
    mismatchWorld 7 none 0 none 0 rfl (by decide) (by decide) (by decide) (by decide)
  ⟨by decide, by decide, h.1, h.2⟩

/-- C3, the counterexample. The server's reply header arrives in full with a
foreign version (2, the client's is 1) and `error_code = 42`: `sockopt_msg_recv`,
`dpvs_setsockopt` and `dpvs_getsockopt` all return 42, not `-ESOCKOPT_VERSION`. -/
theorem C3_errcode_precedes_version :
    HeaderArrives specH rejectWorld.chan
    ∧ (replyOf specH rejectWorld.chan).version ≠ specH.SOCKOPT_VERSION
    ∧ (replyOf specH rejectWorld.chan).errcode = 42
    ∧ (sockopt_msg_recv specH rejectWorld.chan rejectWorld.heap (some blankReply)
        none none).ret = 42
    ∧ (dpvs_setsockopt specH rejectWorld 7 none 0).1 = 42
    ∧ (dpvs_getsockopt specH rejectWorld 7 none 0 (some none) (some 0)).ret = 42
    ∧ (42 : Int) ≠ - specH.ESOCKOPT_VERSION := by
  decide

theorem bodyOf_send (H : SockoptH) (ch : Chan) (hdr : Option dpvs_sock_msg)
    (data : Option (List Byte)) (data_len : Int) (n : Nat) :
    bodyOf H (sockopt_msg_send H ch hdr data data_len).2 n = bodyOf H ch n := by
  unfold bodyOf
  rw [(send_input H ch hdr data data_len).1]

/-- A reply of the right version with error code 0 and no body, received with
both output slots supplied. -/
theorem recv_ok_empty (H : SockoptH) (ch : Chan) (hp : Heap) (slot : dpvs_sock_msg_reply)
    (o : Ptr) (ol : Nat)
    (hfull : HeaderArrives H ch) (herr : (replyOf H ch).errcode = 0)
    (hver : (replyOf H ch).version = H.SOCKOPT_VERSION) (hlen : (replyOf H ch).len = 0) :
    sockopt_msg_recv H ch hp (some slot) (some o) (some ol) =
      { ret := H.ESOCKOPT_OK, reply_hdr := some (replyOf H ch), out := some none,
        out_len := some 0, chan := afterHdr H ch, heap := hp } := by
  rw [recv_no_body H ch hp slot (some o) (some ol) hfull herr hlen]
  simp [hver]

/-- A reply of the right version with error code 0 whose body, shorter than
2^31 bytes, is allocated and arrives in full, received with both output slots
supplied. -/
theorem recv_ok_body (H : SockoptH) (ch : Chan) (hp : Heap) (slot : dpvs_sock_msg_reply)
    (o : Ptr) (ol : Nat) (rest : List Bool)
    (hfull : HeaderArrives H ch) (herr : (replyOf H ch).errcode = 0)
    (hver : (replyOf H ch).version = H.SOCKOPT_VERSION)
    (hpos : 0 < (replyOf H ch).len) (hlen : (replyOf H ch).len < 2147483648)
    (hbody : H.replySize + (replyOf H ch).len ≤ ch.input.length)
    (hplan : hp.plan = true :: rest) :
    sockopt_msg_recv H ch hp (some slot) (some o) (some ol) =
      { ret := H.ESOCKOPT_OK, reply_hdr := some (replyOf H ch), out := some (some hp.next),
        out_len := some (replyOf H ch).len,
        chan := { ch with input := ch.input.drop (H.replySize + (replyOf H ch).len),
                          consumed := ch.consumed + H.replySize + (replyOf H ch).len },
        heap := heapWithBody hp rest (replyOf H ch).len (bodyOf H ch (replyOf H ch).len) } := by
  rw [recv_alloc H ch hp slot (some o) (some ol) rest hfull herr hpos hplan]
  simp only [readn_body H ch _ hbody, toSizeT_toInt32_of_lt _ hlen, ne_eq, not_true_eq_false,
    if_false, hver, Option.isSome_some, and_self, if_true]

theorem heapWithBody_lookup (hp : Heap) (rest : List Bool) (n : Nat) (bytes : List Byte) :
    (heapWithBody hp rest n bytes).lookup hp.next
      = some { addr := hp.next, size := n, data := bytes } := by
  simp [heapWithBody, store, Heap.lookup]

theorem bodyOf_length (H : SockoptH) (ch : Chan) (n : Nat)
    (h : H.replySize + n ≤ ch.input.length) : (bodyOf H ch n).length = n := by
  simp only [bodyOf, List.length_take, List.length_drop]
  omega

/-- C4. A successful transaction of `dpvs_getsockopt` (allocation, connection
and send succeed; the reply header arrives in full with the client's version,
error code 0 and `body_length = n < 2^31`; the body buffer is allocated and the
`n` body bytes arrive): the call returns `ESOCKOPT_OK` with `*out_len = n`.  If
`n > 0`, `*out` points to a live buffer of size `n` holding exactly the `n`
bytes that followed the header, in order; if `n = 0`, `*out` is `NULL` and the
only allocation of the call was its request header. -/
theorem C4_get_hands_over_body (H : SockoptH) (w : World) (cmd : Int)
    (inp : Option (List Byte)) (in_len : Nat) (o : Ptr) (ol : Nat)
    (hc : Connects H w) (hs : SendOk H w (getMsg H cmd in_len) inp in_len)
    (hfull : HeaderArrives H w.chan)
    (hver : (replyOf H w.chan).version = H.SOCKOPT_VERSION)
    (herr : (replyOf H w.chan).errcode = 0)
    (hlen : (replyOf H w.chan).len < 2147483648)
    (hbody : H.replySize + (replyOf H w.chan).len ≤ w.chan.input.length)
    (halloc : 0 < (replyOf H w.chan).len → w.heap.plan.tail.head? = some true) :
    (dpvs_getsockopt H w cmd inp in_len (some o) (some ol)).ret = H.ESOCKOPT_OK
    ∧ (dpvs_getsockopt H w cmd inp in_len (some o) (some ol)).out_len
        = some (replyOf H w.chan).len
    ∧ (0 < (replyOf H w.chan).len →
        (dpvs_getsockopt H w cmd inp in_len (some o) (some ol)).out
          = some (some (w.heap.next + 1))
        ∧ (dpvs_getsockopt H w cmd inp in_len (some o) (some ol)).world.heap.lookup
            (w.heap.next + 1)
          = some { addr := w.heap.next + 1, size := (replyOf H w.chan).len,
                   data := bodyOf H w.chan (replyOf H w.chan).len }
        ∧ (bodyOf H w.chan (replyOf H w.chan).len).length = (replyOf H w.chan).len)
    ∧ ((replyOf H w.chan).len = 0 →
        (dpvs_getsockopt H w cmd inp in_len (some o) (some ol)).out = some none
        ∧ (dpvs_getsockopt H w cmd inp in_len (some o) (some ol)).world.heap.next
            = w.heap.next + 1
        ∧ (dpvs_getsockopt H w cmd inp in_len (some o) (some ol)).world.heap.plan
            = w.heap.plan.tail) := by
  have hi := send_input H w.chan (some (getMsg H cmd in_len)) inp (toInt32 in_len)
  have hrep := replyOf_send H w.chan (some (getMsg H cmd in_len)) inp (toInt32 in_len)
  have hfull' := (headerArrives_send H w.chan (some (getMsg H cmd in_len)) inp
    (toInt32 in_len)).mpr hfull
  have hbo := bodyOf_send H w.chan (some (getMsg H cmd in_len)) inp (toInt32 in_len)
    (replyOf H w.chan).len
  obtain ⟨rest, hplan⟩ := plan_of_connects H w hc
  have hheap := heapAfterSend_eq H w.heap (H.encodeMsg (getMsg H cmd in_len)) rest hplan
  rw [get_after_send H w cmd inp in_len o ol hc hs]
  by_cases h0 : (replyOf H w.chan).len = 0
  · have hr := recv_ok_empty H _ (heapAfterSend H w.heap (H.encodeMsg (getMsg H cmd in_len)))
      blankReply none 0 hfull' (by rw [hrep]; exact herr) (by rw [hrep]; exact hver)
      (by rw [hrep]; exact h0)
    simp only [hr, hrep, herr, h0]
    by_cases hz : H.ESOCKOPT_OK = 0 <;> simp [hz, hheap, hplan]
  · have hpos : 0 < (replyOf H w.chan).len := Nat.pos_of_ne_zero h0
    have hp2 : rest.head? = some true := by
      have := halloc hpos
      rw [hplan] at this
      exact this
    obtain ⟨rest2, hrest⟩ : ∃ rest2, rest = true :: rest2 := by
      cases rest with
      | nil => simp at hp2
      | cons b r => simp at hp2; exact ⟨r, by rw [hp2]⟩
    have hr := recv_ok_body H _ (heapAfterSend H w.heap (H.encodeMsg (getMsg H cmd in_len)))
      blankReply none 0 rest2 hfull' (by rw [hrep]; exact herr) (by rw [hrep]; exact hver)
      (by rw [hrep]; exact hpos) (by rw [hrep]; exact hlen) (by rw [hrep, hi.1]; exact hbody)
      (by rw [hheap, hrest])
    have hl := heapWithBody_lookup (heapAfterSend H w.heap (H.encodeMsg (getMsg H cmd in_len)))
      rest2 (replyOf H w.chan).len (bodyOf H w.chan (replyOf H w.chan).len)
    have hnext : (heapAfterSend H w.heap (H.encodeMsg (getMsg H cmd in_len))).next
        = w.heap.next + 1 := by rw [hheap]
    rw [hnext] at hl
    have hbl := bodyOf_length H w.chan _ hbody
    simp only [hr, hrep, hbo, herr, hnext]
    by_cases hz : H.ESOCKOPT_OK = 0 <;> simp [hz, h0, hl, hbl]

/-- C4, at a concrete input: the server answers a `get` with 12 body bytes; the
caller receives exactly these, in a live buffer. -/
theorem C4_get_hands_over_body_witness :
    (replyOf specH getWorld.chan).len = 12
    ∧ (dpvs_getsockopt specH getWorld 3 none 0 (some none) (some 0)).ret = 0
    ∧ (dpvs_getsockopt specH getWorld 3 none 0 (some none) (some 0)).out_len = some 12
    ∧ (dpvs_getsockopt specH getWorld 3 none 0 (some none) (some 0)).out = some (some 101)
    ∧ (dpvs_getsockopt specH getWorld 3 none 0 (some none) (some 0)).world.heap.lookup 101
        = some { addr := 101, size := 12, data := [1, 2, 3, 4, 5, 6, 7, 8, 9, 10, 11, 12] } :=
  have h := C4_get_hands_over_body specH getWorld 3 none 0 none 0
    (by decide) (by decide) (by decide) (by decide) (by decide) (by decide) (by decide)
    (by decide)
  ⟨by decide, h.1, h.2.1.trans (by decide), (h.2.2.1 (by decide)).1,
    (h.2.2.1 (by decide)).2.1.trans (by decide)⟩

theorem readn_sent (ch : Chan) (n : Nat) :
    (readn ch n).chan.sent = ch.sent ∧ (readn ch n).chan.room = ch.room := by
  unfold readn
  split <;> exact ⟨rfl, rfl⟩

/-- Receiving never touches the sending side of the socket. -/
theorem recv_sent (H : SockoptH) (ch : Chan) (hp : Heap)
    (reply_hdr : Option dpvs_sock_msg_reply) (out : Option Ptr) (out_len : Option Nat) :
    (sockopt_msg_recv H ch hp reply_hdr out out_len).chan.sent = ch.sent := by
  have e1 := (readn_sent ch (toSizeT (toInt32 H.replySize))).1
  have e2 := fun n => (readn_sent (readn ch (toSizeT (toInt32 H.replySize))).chan n).1
  unfold sockopt_msg_recv
  cases reply_hdr with
  | none => rfl
  | some slot =>
    simp only []
    generalize readn ch (toSizeT (toInt32 ↑H.replySize)) = r1 at e1 e2 ⊢
    generalize H.decodeReply (r1.data ++ List.replicate (H.replySize - r1.data.length) 0) = hdr
    have e2' := (e2 hdr.len).trans e1
    generalize readn r1.chan hdr.len = r2 at e2'
    generalize malloc hp hdr.len = m
    generalize toInt32 r1.ret = x1
    generalize toSizeT (toInt32 r2.ret) = x2
    cases m.1 <;> simp only [] <;> split_ifs <;> first | exact e1 | exact e2'

/-- A send phase that reports success on a non-`NULL` body has found `in_len`
readable bytes behind `in`, when `in_len` fits an `int`. -/
theorem send_ok_body_length (H : SockoptH) (ch : Chan) (m : dpvs_sock_msg)
    (d : List Byte) (in_len : Nat)
    (hIo : H.ESOCKOPT_IO ≠ 0) (hlen : in_len < 2147483648)
    (hok : (sockopt_msg_send H ch (some m) (some d) (toInt32 in_len)).1 = 0) :
    (requestBody (some d) in_len).length = in_len := by
  have hl := H.encodeMsg_length m
  have hm := H.msgSize_lt
  rw [toInt32_of_lt _ hlen] at hok
  unfold sockopt_msg_send at hok
  simp only [toInt32_msgSize, toSizeT_msgSize] at hok
  unfold sendn at hok
  by_cases h1 : H.msgSize ≤ (H.encodeMsg m).length ∧ H.msgSize ≤ ch.room
  · simp only [h1, and_self, if_true, toInt32_msgSize, ne_eq, not_true, if_false] at hok
    by_cases h0 : in_len = 0
    · subst h0; simp [requestBody]
    · have h0' : (in_len : Int) ≠ 0 := by omega
      simp only [h0', ne_eq, not_false_eq_true, if_true,
        toSizeT_natCast in_len (by omega)] at hok
      by_cases h2 : in_len ≤ d.length ∧ in_len ≤ ch.room - H.msgSize
      · simp only [requestBody, List.length_take]
        omega
      · simp only [h2, if_false, toInt32_neg_one] at hok
        have : (in_len : Int) ≠ -1 := by omega
        simp [this, hIo] at hok
  · simp only [h1, if_false, toInt32_neg_one] at hok
    have : (H.msgSize : Int) ≠ -1 := by omega
    simp [this, hIo] at hok

theorem set_chan (H : SockoptH) (w : World) (cmd : Int) (inp : Option (List Byte))
    (in_len : Nat) (hc : Connects H w) (hs : SendOk H w (setMsg H cmd in_len) inp in_len) :
    (dpvs_setsockopt H w cmd inp in_len).2.chan =
      (sockopt_msg_recv H
        (sockopt_msg_send H w.chan (some (setMsg H cmd in_len)) inp (toInt32 in_len)).2
        (heapAfterSend H w.heap (H.encodeMsg (setMsg H cmd in_len))) (some blankReply)
        none none).chan := by
  rw [set_after_send H w cmd inp in_len hc hs]
  simp only []
  split_ifs
  · rfl
  · split
    · split_ifs <;> rfl
    · rfl

theorem get_chan (H : SockoptH) (w : World) (cmd : Int) (inp : Option (List Byte))
    (in_len : Nat) (o : Ptr) (ol : Nat) (hc : Connects H w)
    (hs : SendOk H w (getMsg H cmd in_len) inp in_len) :
    (dpvs_getsockopt H w cmd inp in_len (some o) (some ol)).world.chan =
      (sockopt_msg_recv H
        (sockopt_msg_send H w.chan (some (getMsg H cmd in_len)) inp (toInt32 in_len)).2
        (heapAfterSend H w.heap (H.encodeMsg (getMsg H cmd in_len))) (some blankReply)
        (some none) (some 0)).chan := by
  rw [get_after_send H w cmd inp in_len o ol hc hs]
  simp only []
  split_ifs
  · rfl
  · split
    · split_ifs <;> rfl
    · rfl

/-- C7, as amended. For every `cmd`, `in` and `in_len < 2^31` whose send phase
reports success, the bytes `dpvs_setsockopt` / `dpvs_getsockopt` wrote to the
socket are the request header (`setMsg` resp. `getMsg`: `SOCKOPT_VERSION`, `cmd`,
`SOCKOPT_SET` resp. `SOCKOPT_GET`, `len = in_len`) followed immediately by the body: the `in_len`
bytes `in[0..in_len)` when `in` is not `NULL`, and no byte at all when `in` is
`NULL`, whatever `in_len` the header announces. -/
theorem C7_request_bytes (H : SockoptH) (w : World) (cmd : Int)
    (inp : Option (List Byte)) (in_len : Nat) (o : Ptr) (ol : Nat)
    (hc : Connects H w) (hs : SendOk H w (setMsg H cmd in_len) inp in_len)
    (hIo : H.ESOCKOPT_IO ≠ 0) (hlen : in_len < 2147483648) :
    (dpvs_setsockopt H w cmd inp in_len).2.chan.sent
        = w.chan.sent ++ H.encodeMsg (setMsg H cmd in_len) ++ requestBody inp in_len
    ∧ (dpvs_getsockopt H w cmd inp in_len (some o) (some ol)).world.chan.sent
        = w.chan.sent ++ H.encodeMsg (getMsg H cmd in_len) ++ requestBody inp in_len
    ∧ (∀ d, inp = some d → requestBody inp in_len = d.take in_len
        ∧ (requestBody inp in_len).length = in_len)
    ∧ (inp = none → requestBody inp in_len = []) := by
  have hsg : SendOk H w (getMsg H cmd in_len) inp in_len := sendOk_indep H w _ _ inp in_len hs
  refine ⟨?_, ?_, ?_, ?_⟩
  · rw [set_chan H w cmd inp in_len hc hs, recv_sent]
    exact send_ok_sent H w.chan (setMsg H cmd in_len) inp in_len hIo hlen hs
  · rw [get_chan H w cmd inp in_len o ol hc hsg, recv_sent]
    exact send_ok_sent H w.chan (getMsg H cmd in_len) inp in_len hIo hlen hsg
  · intro d hd
    subst hd
    exact ⟨rfl, send_ok_body_length H w.chan (setMsg H cmd in_len) d in_len hIo hlen hs⟩
  · intro hn
    subst hn
    rfl

/-- C7, at a concrete input: a request with the two-byte body `[5, 6]`. -/
theorem C7_request_bytes_witness :
    (dpvs_setsockopt specH okWorld 7 (some [5, 6, 7]) 2).2.chan.sent
      = [1, 0, 0, 0, 7, 0, 0, 0, 1, 2, 0, 0, 0, 0, 0, 0, 0] ++ [5, 6]
    ∧ (dpvs_getsockopt specH okWorld 7 (some [5, 6, 7]) 2 (some none) (some 0)).world.chan.sent
      = [1, 0, 0, 0, 7, 0, 0, 0, 2, 2, 0, 0, 0, 0, 0, 0, 0] ++ [5, 6] :=
  have h := C7_request_bytes specH okWorld 7 (some [5, 6, 7]) 2 none 0
    (by decide) (by decide) (by decide) (by decide)
  ⟨h.1.trans (by decide), h.2.1.trans (by decide)⟩

/-- C7, the counterexample. `dpvs_setsockopt(7, NULL, 1)`: the send phase reports
success and the call returns `ESOCKOPT_OK`, the header written announces
`len = 1`, and the bytes written to the socket are the 17 header bytes alone: no
body byte follows. -/
theorem C7_null_body_not_sent :
    SendOk specH okWorld (setMsg specH 7 1) none 1
    ∧ (dpvs_setsockopt specH okWorld 7 none 1).1 = specH.ESOCKOPT_OK
    ∧ (setMsg specH 7 1).len = 1
    ∧ (dpvs_setsockopt specH okWorld 7 none 1).2.chan.sent = specH.encodeMsg (setMsg specH 7 1)
    ∧ (dpvs_setsockopt specH okWorld 7 none 1).2.chan.sent.length
        ≠ specH.msgSize + (setMsg specH 7 1).len := by
  decide

/-! ## The socket descriptor -/

theorem fdsAfterClose_opened (f : Fds) (h : 0 ≤ f.socketRet) :
    (fdsAfterClose f).opened = f.opened := by
  simp [fdsAfterClose, socket, close, h]

/-- Once connected, `dpvs_setsockopt` closes its socket on every path. -/
theorem set_closes_socket (H : SockoptH) (w : World) (cmd : Int) (inp : Option (List Byte))
    (in_len : Nat) (hc : Connects H w) (hfd : 0 ≤ w.fds.socketRet) :
    (dpvs_setsockopt H w cmd inp in_len).2.fds.opened = w.fds.opened := by
  rw [set_connected H w cmd inp in_len hc, ← fdsAfterClose_opened w.fds hfd]
  simp only []
  split_ifs
  · rfl
  · rfl
  · split
    · split_ifs <;> rfl
    · rfl

/-- Once connected, `dpvs_getsockopt` closes its socket on every path. -/
theorem get_closes_socket (H : SockoptH) (w : World) (cmd : Int) (inp : Option (List Byte))
    (in_len : Nat) (o : Ptr) (ol : Nat) (hc : Connects H w) (hfd : 0 ≤ w.fds.socketRet) :
    (dpvs_getsockopt H w cmd inp in_len (some o) (some ol)).world.fds.opened = w.fds.opened := by
  rw [get_connected H w cmd inp in_len o ol hc, ← fdsAfterClose_opened w.fds hfd]
  simp only []
  split_ifs
  · rfl
  · rfl
  · split
    · split_ifs <;> rfl
    · rfl

/-- When `connect` fails on a socket that was created, both entry points return
`-ESOCKOPT_IO` and leave the descriptor open (lines 132-137 and 200-205 have no
`close`). -/
theorem connect_failure_leaks (H : SockoptH) (w : World) (cmd : Int)
    (inp : Option (List Byte)) (in_len : Nat) (o : Ptr) (ol : Nat)
    (hm : (malloc w.heap H.msgSize).1.isSome = true) (hfd : 0 ≤ w.fds.socketRet)
    (hcf : w.fds.connectRet = -1) :
    (dpvs_setsockopt H w cmd inp in_len).1 = - H.ESOCKOPT_IO
    ∧ (dpvs_setsockopt H w cmd inp in_len).2.fds.opened = w.fds.socketRet :: w.fds.opened
    ∧ (dpvs_getsockopt H w cmd inp in_len (some o) (some ol)).ret = - H.ESOCKOPT_IO
    ∧ (dpvs_getsockopt H w cmd inp in_len (some o) (some ol)).world.fds.opened
        = w.fds.socketRet :: w.fds.opened := by
  obtain ⟨a, ha⟩ := Option.isSome_iff_exists.mp hm
  have hcn : (-1 : Int) = connect (socket w.fds).2 (socket w.fds).1 := by
    simp [connect, socket, hfd, hcf]
  simp only [dpvs_setsockopt, dpvs_getsockopt, ha, hcn.symm, if_true, Option.isNone_some,
    Bool.false_eq_true, or_self, if_false]
  simp [socket, hfd]

/-- C6, at the failing input. `socket()` succeeds (descriptor 3, none open
before) and `connect()` returns -1: `dpvs_setsockopt` and `dpvs_getsockopt`
return `-ESOCKOPT_IO` with descriptor 3 still open, so the set of open
descriptors after the call differs from the set before it. -/
theorem C6_connect_failure_leaves_socket_open :
    refusedWorld.fds.opened = []
    ∧ (socket refusedWorld.fds).1 = 3
    ∧ connect (socket refusedWorld.fds).2 3 = -1
    ∧ (dpvs_setsockopt specH refusedWorld 7 none 0).1 = - specH.ESOCKOPT_IO
    ∧ (dpvs_setsockopt specH refusedWorld 7 none 0).2.fds.opened = [3]
    ∧ (dpvs_getsockopt specH refusedWorld 7 none 0 (some none) (some 0)).ret
        = - specH.ESOCKOPT_IO
    ∧ (dpvs_getsockopt specH refusedWorld 7 none 0 (some none) (some 0)).world.fds.opened
        = [3] := by
  decide

/-- C8, at the failing input. The allocation of the request header fails:
`dpvs_setsockopt` returns `-ESOCKOPT_INVAL` (line 127) where `dpvs_getsockopt`,
with both output slots supplied, returns `-ESOCKOPT_NOMEM` (line 195). -/
theorem C8_statuses_differ_on_alloc_failure :
    (malloc nomemWorld.heap specH.msgSize).1 = none
    ∧ (dpvs_setsockopt specH nomemWorld 7 none 0).1 = - specH.ESOCKOPT_INVAL
    ∧ (dpvs_getsockopt specH nomemWorld 7 none 0 (some none) (some 0)).ret
        = - specH.ESOCKOPT_NOMEM
    ∧ (dpvs_setsockopt specH nomemWorld 7 none 0).1
        ≠ (dpvs_getsockopt specH nomemWorld 7 none 0 (some none) (some 0)).ret := by
  decide

/-- C10, as amended. For every reply with nonzero `error_code` (received in
full after a successful connection and send phase) the status returned by
`dpvs_setsockopt` / `dpvs_getsockopt` is that `error_code` itself; so it
differs from a local failure status (`-ESOCKOPT_INVAL`, `-ESOCKOPT_IO`,
`-ESOCKOPT_NOMEM`, `-ESOCKOPT_VERSION`) exactly when the server's `error_code`
differs from that value. -/
theorem C10_server_status_is_errcode (H : SockoptH) (w : World) (cmd : Int)
    (inp : Option (List Byte)) (in_len : Nat) (o : Ptr) (ol : Nat)
    (hc : Connects H w) (hs : SendOk H w (setMsg H cmd in_len) inp in_len)
    (hfull : HeaderArrives H w.chan) (herr : (replyOf H w.chan).errcode ≠ 0) :
    (dpvs_setsockopt H w cmd inp in_len).1 = (replyOf H w.chan).errcode
    ∧ (dpvs_getsockopt H w cmd inp in_len (some o) (some ol)).ret = (replyOf H w.chan).errcode
    ∧ ∀ c ∈ [- H.ESOCKOPT_INVAL, - H.ESOCKOPT_IO, - H.ESOCKOPT_NOMEM, - H.ESOCKOPT_VERSION],
        (((dpvs_setsockopt H w cmd inp in_len).1 ≠ c ↔ (replyOf H w.chan).errcode ≠ c)
        ∧ ((dpvs_getsockopt H w cmd inp in_len (some o) (some ol)).ret ≠ c
            ↔ (replyOf H w.chan).errcode ≠ c)) := by
  have hsg : SendOk H w (getMsg H cmd in_len) inp in_len := sendOk_indep H w _ _ inp in_len hs
  have h1 := set_errcode H w cmd inp in_len hc hs hfull herr
  have h2 := get_errcode H w cmd inp in_len o ol hc hsg hfull herr
  refine ⟨h1, h2, fun c _ => ?_⟩
  rw [h1, h2]
  exact ⟨Iff.rfl, Iff.rfl⟩

/-- C10, at a concrete input: a server error 42 is returned as 42, which is not
`-ESOCKOPT_IO`. -/
theorem C10_server_status_is_errcode_witness :
    (replyOf specH rejectWorld.chan).errcode = 42
    ∧ (dpvs_setsockopt specH rejectWorld 7 none 0).1 = 42
    ∧ (dpvs_getsockopt specH rejectWorld 7 none 0 (some none) (some 0)).ret = 42
    ∧ (dpvs_setsockopt specH rejectWorld 7 none 0).1 ≠ - specH.ESOCKOPT_IO :=
  have h := C10_server_status_is_errcode specH rejectWorld 7 none 0 none 0
    (by decide) (by decide) (by decide) (by decide)
  ⟨by decide, h.1.trans (by decide), h.2.1.trans (by decide),
    ((h.2.2 (- specH.ESOCKOPT_IO) (by decide)).1).mpr (by decide)⟩

/-- C10, the counterexample. Two runs: in the first the server rejects the
request (its reply arrives in full with `error_code = -2`); in the second the
transport fails (the connection breaks 10 bytes into the reply header).  Both
`dpvs_setsockopt` and `dpvs_getsockopt` return the same status, the value of
`-ESOCKOPT_IO`, in the two runs, and `dpvs_getsockopt` the same output slots. -/
theorem C10_server_error_equals_io_error :
    HeaderArrives specH rejectIoWorld.chan
    ∧ (replyOf specH rejectIoWorld.chan).errcode ≠ 0
    ∧ ¬ HeaderArrives specH brokenWorld.chan
    ∧ (dpvs_setsockopt specH rejectIoWorld 7 none 0).1 = - specH.ESOCKOPT_IO
    ∧ (dpvs_setsockopt specH brokenWorld 7 none 0).1 = - specH.ESOCKOPT_IO
    ∧ (dpvs_getsockopt specH rejectIoWorld 7 none 0 (some none) (some 0)).ret
        = (dpvs_getsockopt specH brokenWorld 7 none 0 (some none) (some 0)).ret
    ∧ (dpvs_getsockopt specH rejectIoWorld 7 none 0 (some none) (some 0)).out
        = (dpvs_getsockopt specH brokenWorld 7 none 0 (some none) (some 0)).out
    ∧ (dpvs_getsockopt specH rejectIoWorld 7 none 0 (some none) (some 0)).out_len
        = (dpvs_getsockopt specH brokenWorld 7 none 0 (some none) (some 0)).out_len := by
  decide

/-! ## The fate of the body buffer -/

theorem lookup_free (hp : Heap) (a : Nat) : (free hp (some a)).lookup a = none := by
  simp [free, Heap.lookup, List.find?_eq_none]

/-- C9. Every run of `sockopt_msg_recv` that allocates the body buffer (the
header arrives in full with error code 0 and `body_length > 0`, and `malloc`
succeeds) ends with that buffer, at address `p`, in exactly one of two states.
Handed over: `*out = p`, `*out_len = body_length`, the buffer is live and was not
freed; this happens if and only if the return is `ESOCKOPT_OK` and both `out`
and `out_len` were supplied.  Released: the buffer was freed exactly once (one
new entry, `p`, in the log of `free`), it is no longer live, and each output
slot that is present holds "no data" (`NULL`, 0). -/
theorem C9_body_buffer_single_fate (H : SockoptH) (ch : Chan) (hp : Heap)
    (slot : dpvs_sock_msg_reply) (out : Option Ptr) (out_len : Option Nat) (rest : List Bool)
    (hfull : HeaderArrives H ch) (herr : (replyOf H ch).errcode = 0)
    (hpos : 0 < (replyOf H ch).len) (hplan : hp.plan = true :: rest)
    (hIo : - H.ESOCKOPT_IO ≠ H.ESOCKOPT_OK) (hVer : - H.ESOCKOPT_VERSION ≠ H.ESOCKOPT_OK) :
    ((sockopt_msg_recv H ch hp (some slot) out out_len).out = some (some hp.next)
      ↔ (sockopt_msg_recv H ch hp (some slot) out out_len).ret = H.ESOCKOPT_OK
        ∧ out.isSome = true ∧ out_len.isSome = true)
    ∧ ((sockopt_msg_recv H ch hp (some slot) out out_len).out = some (some hp.next) →
        (sockopt_msg_recv H ch hp (some slot) out out_len).out_len = some (replyOf H ch).len
        ∧ ((sockopt_msg_recv H ch hp (some slot) out out_len).heap.lookup hp.next).isSome = true
        ∧ (sockopt_msg_recv H ch hp (some slot) out out_len).heap.freed = hp.freed)
    ∧ ((sockopt_msg_recv H ch hp (some slot) out out_len).out ≠ some (some hp.next) →
        (sockopt_msg_recv H ch hp (some slot) out out_len).heap.freed = hp.next :: hp.freed
        ∧ (sockopt_msg_recv H ch hp (some slot) out out_len).heap.lookup hp.next = none
        ∧ (sockopt_msg_recv H ch hp (some slot) out out_len).out = out.map (fun _ => none)
        ∧ (sockopt_msg_recv H ch hp (some slot) out out_len).out_len
            = out_len.map (fun _ => 0)) := by
  have hno : out.map (fun _ => (none : Ptr)) ≠ some (some hp.next) := by
    cases out <;> simp
  have hl := heapWithBody_lookup hp rest (replyOf H ch).len
    (readn (afterHdr H ch) (replyOf H ch).len).data
  have hf : (heapWithBody hp rest (replyOf H ch).len
      (readn (afterHdr H ch) (replyOf H ch).len).data).freed = hp.freed := by
    simp [heapWithBody, store]
  have hff : (free (heapWithBody hp rest (replyOf H ch).len
      (readn (afterHdr H ch) (replyOf H ch).len).data) (some hp.next)).freed
      = hp.next :: hp.freed := by
    simp [free, hf]
  have hfl := lookup_free (heapWithBody hp rest (replyOf H ch).len
      (readn (afterHdr H ch) (replyOf H ch).len).data) hp.next
  rw [recv_alloc H ch hp slot out out_len rest hfull herr hpos hplan]
  simp only []
  split_ifs with c1 c2 c3
  · simp [hno, hIo, hff, hfl]
  · simp [hno, hVer, hff, hfl]
  · simp [c3.1, c3.2, hl, hf]
  · have c3' : ¬ (out.isSome = true ∧ out_len.isSome = true) := c3
    simp only [hno, false_iff, not_and, true_and, IsEmpty.forall_iff, ne_eq, not_false_eq_true,
      hff, hfl, forall_true_left, and_self, and_true]
    intro ho hl2
    exact c3' ⟨ho, hl2⟩

/-- C9, at a concrete input: the same 12-byte reply is handed over (and not
freed) when both slots are supplied, and freed once when none is. -/
theorem C9_body_buffer_single_fate_witness :
    (sockopt_msg_recv specH getWorld.chan (heapWith [true]) (some blankReply)
        (some none) (some 0)).out = some (some 100)
    ∧ (sockopt_msg_recv specH getWorld.chan (heapWith [true]) (some blankReply)
        (some none) (some 0)).heap.freed = []
    ∧ (sockopt_msg_recv specH getWorld.chan (heapWith [true]) (some blankReply)
        none none).heap.freed = [100] :=
  have h := C9_body_buffer_single_fate specH getWorld.chan (heapWith [true]) blankReply
    (some none) (some 0) [] (by decide) (by decide) (by decide) rfl (by decide) (by decide)
  have ho := h.1.mpr ⟨by decide, rfl, rfl⟩
  ⟨ho, (h.2.1 ho).2.2, by decide⟩

/-! ## When the receive phase succeeds -/

theorem toSizeT_neg_one : toSizeT (-1) = 18446744073709551615 := by decide

/-- A body shorter than 2^31 bytes that does not arrive in full is noticed. -/
theorem readn_short_mismatch (ch : Chan) (n : Nat) (hshort : ch.input.length < n)
    (hn : n < 2147483648) : toSizeT (toInt32 (readn ch n).ret) ≠ n := by
  rw [readn_short ch n hshort]
  simp only []
  split
  · rw [toInt32_neg_one, toSizeT_neg_one]; omega
  · rw [toSizeT_toInt32_of_lt _ (by omega)]; omega

/-- The receive phase returns 0 exactly when the reply arrives in full with
error code 0 and the client's version (for a body shorter than 2^31 bytes). -/
theorem recv_zero_iff (H : SockoptH) (ch : Chan) (hp : Heap) (slot : dpvs_sock_msg_reply)
    (out : Option Ptr) (out_len : Option Nat)
    (hOk : H.ESOCKOPT_OK = 0) (hIo : H.ESOCKOPT_IO ≠ 0) (hNm : H.ESOCKOPT_NOMEM ≠ 0)
    (hV : H.ESOCKOPT_VERSION ≠ 0)
    (hlen : HeaderArrives H ch → (replyOf H ch).len < 2147483648) :
    (sockopt_msg_recv H ch hp (some slot) out out_len).ret = 0
      ↔ HeaderArrives H ch ∧ (replyOf H ch).errcode = 0
        ∧ (replyOf H ch).version = H.SOCKOPT_VERSION
        ∧ (0 < (replyOf H ch).len →
            hp.plan.head? = some true ∧ H.replySize + (replyOf H ch).len ≤ ch.input.length) := by
  have hIo' : - H.ESOCKOPT_IO ≠ 0 := by omega
  have hNm' : - H.ESOCKOPT_NOMEM ≠ 0 := by omega
  have hV' : - H.ESOCKOPT_VERSION ≠ 0 := by omega
  constructor
  · intro h
    by_cases hfull : HeaderArrives H ch
    swap
    · rw [recv_short_hdr H ch hp slot out out_len hfull] at h
      exact absurd h hIo'
    by_cases herr : (replyOf H ch).errcode = 0
    swap
    · rw [recv_errcode H ch hp slot out out_len hfull herr] at h
      exact absurd h herr
    by_cases h0 : (replyOf H ch).len = 0
    · rw [recv_no_body H ch hp slot out out_len hfull herr h0] at h
      by_cases hver : H.SOCKOPT_VERSION = (replyOf H ch).version
      · exact ⟨hfull, herr, hver.symm, fun hpos => absurd h0 (by omega)⟩
      · rw [if_pos hver] at h
        exact absurd h hV'
    · have hpos : 0 < (replyOf H ch).len := Nat.pos_of_ne_zero h0
      by_cases hpl : hp.plan.head? = some true
      swap
      · rw [recv_nomem H ch hp slot out out_len hfull herr hpos hpl] at h
        exact absurd h hNm'
      obtain ⟨rest, hplan⟩ := plan_of_head hp hpl
      rw [recv_alloc H ch hp slot out out_len rest hfull herr hpos hplan] at h
      simp only [] at h
      by_cases hb : H.replySize + (replyOf H ch).len ≤ ch.input.length
      · by_cases hver : H.SOCKOPT_VERSION = (replyOf H ch).version
        · exact ⟨hfull, herr, hver.symm, fun _ => ⟨hpl, hb⟩⟩
        · rw [readn_body H ch _ hb] at h
          simp only [toSizeT_toInt32_of_lt _ (hlen hfull), ne_eq, not_true_eq_false, if_false,
            hver, not_false_eq_true, if_true] at h
          exact absurd h hV'
      · have hm := readn_short_mismatch (afterHdr H ch) (replyOf H ch).len
          (by rw [afterHdr_input_length]; unfold HeaderArrives at hfull; omega) (hlen hfull)
        rw [if_pos hm] at h
        exact absurd h hIo'
  · rintro ⟨hfull, herr, hver, hb⟩
    by_cases h0 : (replyOf H ch).len = 0
    · rw [recv_no_body H ch hp slot out out_len hfull herr h0]
      simp only [hver, ne_eq, not_true_eq_false, if_false]
      split_ifs <;> exact hOk
    · have hpos : 0 < (replyOf H ch).len := Nat.pos_of_ne_zero h0
      obtain ⟨hpl, hbody⟩ := hb hpos
      obtain ⟨rest, hplan⟩ := plan_of_head hp hpl
      rw [recv_alloc H ch hp slot out out_len rest hfull herr hpos hplan]
      simp only [readn_body H ch _ hbody, toSizeT_toInt32_of_lt _ (hlen hfull), ne_eq,
        not_true_eq_false, if_false, hver]
      split_ifs <;> exact hOk

/-- The header a call of `sockopt_msg_recv` fills in, when it arrives in full. -/
theorem recv_reply_hdr (H : SockoptH) (ch : Chan) (hp : Heap) (slot : dpvs_sock_msg_reply)
    (out : Option Ptr) (out_len : Option Nat) (hfull : HeaderArrives H ch) :
    (sockopt_msg_recv H ch hp (some slot) out out_len).reply_hdr = some (replyOf H ch) := by
  by_cases herr : (replyOf H ch).errcode = 0
  swap
  · rw [recv_errcode H ch hp slot out out_len hfull herr]
  by_cases h0 : (replyOf H ch).len = 0
  · rw [recv_no_body H ch hp slot out out_len hfull herr h0]
    split_ifs <;> rfl
  · have hpos : 0 < (replyOf H ch).len := Nat.pos_of_ne_zero h0
    by_cases hpl : hp.plan.head? = some true
    · obtain ⟨rest, hplan⟩ := plan_of_head hp hpl
      rw [recv_alloc H ch hp slot out out_len rest hfull herr hpos hplan]
      simp only []
      split_ifs <;> rfl
    · rw [recv_nomem H ch hp slot out out_len hfull herr hpos hpl]

/-! ## When the send phase succeeds -/

/-- A send phase that fails has not written the whole request. -/
theorem send_fail_sent (H : SockoptH) (ch : Chan) (m : dpvs_sock_msg)
    (inp : Option (List Byte)) (in_len : Nat)
    (hlen : in_len < 2147483648) (hbuf : ∀ d, inp = some d → in_len ≤ d.length)
    (hfail : (sockopt_msg_send H ch (some m) inp (toInt32 in_len)).1 ≠ 0) :
    (sockopt_msg_send H ch (some m) inp (toInt32 in_len)).2.sent
      ≠ ch.sent ++ H.encodeMsg m ++ requestBody inp in_len := by
  have hl := H.encodeMsg_length m
  have hm := H.msgSize_lt
  intro heq
  have hlen' := congrArg List.length heq
  rw [toInt32_of_lt _ hlen] at hfail hlen'
  unfold sockopt_msg_send at hfail hlen'
  simp only [toInt32_msgSize, toSizeT_msgSize] at hfail hlen'
  unfold sendn at hfail hlen'
  by_cases h1 : H.msgSize ≤ (H.encodeMsg m).length ∧ H.msgSize ≤ ch.room
  · simp only [h1, and_self, if_true, toInt32_msgSize, ne_eq, not_true, if_false] at hfail hlen'
    cases inp with
    | none => exact hfail rfl
    | some d =>
      have hd := hbuf d rfl
      simp only [] at hfail hlen'
      by_cases h0 : in_len = 0
      · subst h0; simp at hfail
      · have h0' : (in_len : Int) ≠ 0 := by omega
        simp only [h0', ne_eq, not_false_eq_true, if_true,
          toSizeT_natCast in_len (by omega)] at hfail hlen'
        by_cases h2 : in_len ≤ d.length ∧ in_len ≤ ch.room - H.msgSize
        · simp only [h2, and_self, if_true, toInt32_of_lt _ hlen, not_true_eq_false,
            if_false] at hfail
        · simp only [h2, if_false, toInt32_neg_one] at hlen'
          have : (in_len : Int) ≠ -1 := by omega
          simp only [this, ne_eq, not_false_eq_true, if_true, requestBody, List.length_append,
            List.length_take] at hlen'
          omega
  · simp only [h1, if_false, toInt32_neg_one] at hlen'
    have : (H.msgSize : Int) ≠ -1 := by omega
    simp only [this, ne_eq, not_false_eq_true, if_true, List.length_append,
      List.length_take] at hlen'
    omega

/-- Without allocation or connection `dpvs_setsockopt` fails locally. -/
theorem set_not_connected (H : SockoptH) (w : World) (cmd : Int) (inp : Option (List Byte))
    (in_len : Nat) (hc : ¬ Connects H w) :
    (dpvs_setsockopt H w cmd inp in_len).1 = - H.ESOCKOPT_INVAL
    ∨ (dpvs_setsockopt H w cmd inp in_len).1 = - H.ESOCKOPT_IO := by
  unfold Connects at hc
  cases hm : (malloc w.heap H.msgSize).1 with
  | none =>
    left
    simp only [dpvs_setsockopt, hm]
  | some a =>
    right
    have hcn : (-1 : Int) = connect (socket w.fds).2 (socket w.fds).1 := by
      by_contra hne
      exact hc ⟨by rw [hm]; rfl, fun h => hne h.symm⟩
    simp only [dpvs_setsockopt, hm, hcn.symm, if_true]

/-- Once connected, the bytes `dpvs_setsockopt` leaves written are those of its
send phase. -/
theorem set_sent_connected (H : SockoptH) (w : World) (cmd : Int) (inp : Option (List Byte))
    (in_len : Nat) (hc : Connects H w) :
    (dpvs_setsockopt H w cmd inp in_len).2.chan.sent
      = (sockopt_msg_send H w.chan (some (setMsg H cmd in_len)) inp (toInt32 in_len)).2.sent := by
  by_cases hs : SendOk H w (setMsg H cmd in_len) inp in_len
  · rw [set_chan H w cmd inp in_len hc hs, recv_sent]
  · have hs' : (sockopt_msg_send H w.chan (some (setMsg H cmd in_len)) inp
        (toInt32 in_len)).1 ≠ 0 := hs
    rw [set_connected H w cmd inp in_len hc]
    simp only [hs', ne_eq, not_false_eq_true, if_true]

/-- C5, as amended. For `in_len < 2^31` (with `in_len` readable bytes behind a
non-`NULL` `in`) and a reply whose `body_length` is below 2^31,
`dpvs_setsockopt` returns `ESOCKOPT_OK` (0) if and only if the request header
is allocated and the connection succeeds, the request header and the body (the
`in_len` bytes at `in`; no byte when `in` is `NULL`) are completely sent, the
reply (header, and body when `body_length > 0`, its buffer allocated) is
completely received with the client's version, and the reply's `error_code` is
0.  And whenever `sockopt_msg_recv`, called without output slots, returns
`ESOCKOPT_OK`, the header it filled has `error_code == 0` and
`version == SOCKOPT_VERSION`, nothing is returned, and the body buffer, if one
was allocated, has been freed. -/
theorem C5_set_succeeds_iff (H : SockoptH) (w : World) (cmd : Int)
    (inp : Option (List Byte)) (in_len : Nat)
    (hOk : H.ESOCKOPT_OK = 0) (hInv : H.ESOCKOPT_INVAL ≠ 0) (hIo : H.ESOCKOPT_IO ≠ 0)
    (hNm : H.ESOCKOPT_NOMEM ≠ 0) (hV : H.ESOCKOPT_VERSION ≠ 0)
    (hlen : in_len < 2147483648) (hbuf : ∀ d, inp = some d → in_len ≤ d.length)
    (hrlen : HeaderArrives H w.chan → (replyOf H w.chan).len < 2147483648) :
    ((dpvs_setsockopt H w cmd inp in_len).1 = H.ESOCKOPT_OK
      ↔ Connects H w
        ∧ (dpvs_setsockopt H w cmd inp in_len).2.chan.sent
            = w.chan.sent ++ H.encodeMsg (setMsg H cmd in_len) ++ requestBody inp in_len
        ∧ HeaderArrives H w.chan
        ∧ (0 < (replyOf H w.chan).len →
            w.heap.plan.tail.head? = some true
            ∧ H.replySize + (replyOf H w.chan).len ≤ w.chan.input.length)
        ∧ (replyOf H w.chan).version = H.SOCKOPT_VERSION
        ∧ (replyOf H w.chan).errcode = 0)
    ∧ (∀ (ch : Chan) (hp : Heap) (slot : dpvs_sock_msg_reply),
        (sockopt_msg_recv H ch hp (some slot) none none).ret = H.ESOCKOPT_OK →
          (sockopt_msg_recv H ch hp (some slot) none none).reply_hdr = some (replyOf H ch)
          ∧ (replyOf H ch).errcode = 0
          ∧ (replyOf H ch).version = H.SOCKOPT_VERSION
          ∧ (sockopt_msg_recv H ch hp (some slot) none none).out = none
          ∧ (sockopt_msg_recv H ch hp (some slot) none none).out_len = none
          ∧ (0 < (replyOf H ch).len →
              (sockopt_msg_recv H ch hp (some slot) none none).heap.freed = hp.next :: hp.freed
              ∧ (sockopt_msg_recv H ch hp (some slot) none none).heap.lookup hp.next = none)) := by
  have hInv' : - H.ESOCKOPT_INVAL ≠ 0 := by omega
  have hIo' : - H.ESOCKOPT_IO ≠ 0 := by omega
  have hNm' : - H.ESOCKOPT_NOMEM ≠ 0 := by omega
  have hV' : - H.ESOCKOPT_VERSION ≠ 0 := by omega
  have hi := send_input H w.chan (some (setMsg H cmd in_len)) inp (toInt32 in_len)
  have hrep := replyOf_send H w.chan (some (setMsg H cmd in_len)) inp (toInt32 in_len)
  have hha := headerArrives_send H w.chan (some (setMsg H cmd in_len)) inp (toInt32 in_len)
  refine ⟨⟨fun h => ?_, fun h => ?_⟩, fun ch hp slot h => ?_⟩
  · -- success implies every phase succeeded
    rw [hOk] at h
    by_cases hc : Connects H w
    swap
    · rcases set_not_connected H w cmd inp in_len hc with e | e
      · rw [e] at h; exact absurd h hInv'
      · rw [e] at h; exact absurd h hIo'
    by_cases hs : SendOk H w (setMsg H cmd in_len) inp in_len
    swap
    · have hs' : (sockopt_msg_send H w.chan (some (setMsg H cmd in_len)) inp
          (toInt32 in_len)).1 ≠ 0 := hs
      rw [set_connected H w cmd inp in_len hc] at h
      simp only [hs', ne_eq, not_false_eq_true, if_true] at h
    have hsent : (dpvs_setsockopt H w cmd inp in_len).2.chan.sent
        = w.chan.sent ++ H.encodeMsg (setMsg H cmd in_len) ++ requestBody inp in_len := by
      rw [set_sent_connected H w cmd inp in_len hc]
      exact send_ok_sent H w.chan (setMsg H cmd in_len) inp in_len hIo hlen hs
    have hr : (sockopt_msg_recv H
        (sockopt_msg_send H w.chan (some (setMsg H cmd in_len)) inp (toInt32 in_len)).2
        (heapAfterSend H w.heap (H.encodeMsg (setMsg H cmd in_len))) (some blankReply)
        none none).ret = 0 := by
      by_contra hne
      rw [set_after_send H w cmd inp in_len hc hs] at h
      simp only [ne_eq, hne, not_false_eq_true, if_true] at h
    obtain ⟨hfull, herr, hver, hb⟩ := (recv_zero_iff H _ _ blankReply none none hOk hIo hNm hV
      (fun hf => by rw [hrep]; exact hrlen (hha.mp hf))).mp hr
    rw [hrep] at herr hver hb
    obtain ⟨rest, hplan⟩ := plan_of_connects H w hc
    refine ⟨hc, hsent, hha.mp hfull, fun hpos => ?_, hver, herr⟩
    obtain ⟨hpl, hbody⟩ := hb hpos
    rw [heapAfterSend_eq H w.heap _ rest hplan] at hpl
    rw [hi.1] at hbody
    exact ⟨by rw [hplan]; exact hpl, hbody⟩
  · -- every phase succeeded implies success
    obtain ⟨hc, hsent, hfull, hb, hver, herr⟩ := h
    have hs : SendOk H w (setMsg H cmd in_len) inp in_len := by
      by_contra hs
      rw [set_sent_connected H w cmd inp in_len hc] at hsent
      exact send_fail_sent H w.chan (setMsg H cmd in_len) inp in_len hlen hbuf hs hsent
    have hr : (sockopt_msg_recv H
        (sockopt_msg_send H w.chan (some (setMsg H cmd in_len)) inp (toInt32 in_len)).2
        (heapAfterSend H w.heap (H.encodeMsg (setMsg H cmd in_len))) (some blankReply)
        none none).ret = 0 := by
      refine (recv_zero_iff H _ _ blankReply none none hOk hIo hNm hV
        (fun hf => by rw [hrep]; exact hrlen (hha.mp hf))).mpr
        ⟨hha.mpr hfull, by rw [hrep]; exact herr, by rw [hrep]; exact hver, fun hpos => ?_⟩
      rw [hrep] at hpos ⊢
      obtain ⟨hpl, hbody⟩ := hb hpos
      exact ⟨heapAfterSend_plan_head H w _ hc hpl, by rw [hi.1]; exact hbody⟩
    rw [set_after_send H w cmd inp in_len hc hs]
    simp only [hr, ne_eq, not_true_eq_false, if_false,
      recv_reply_hdr H _ _ blankReply none none (hha.mpr hfull), hrep, herr]
  · -- the receive phase alone
    have hI : - H.ESOCKOPT_IO ≠ H.ESOCKOPT_OK := by rw [hOk]; exact hIo'
    have hN : - H.ESOCKOPT_NOMEM ≠ H.ESOCKOPT_OK := by rw [hOk]; exact hNm'
    have hVe : - H.ESOCKOPT_VERSION ≠ H.ESOCKOPT_OK := by rw [hOk]; exact hV'
    by_cases hfull : HeaderArrives H ch
    swap
    · rw [recv_short_hdr H ch hp slot none none hfull] at h
      exact absurd h hI
    by_cases herr : (replyOf H ch).errcode = 0
    swap
    · rw [recv_errcode H ch hp slot none none hfull herr, hOk] at h
      exact absurd h herr
    by_cases h0 : (replyOf H ch).len = 0
    · rw [recv_no_body H ch hp slot none none hfull herr h0] at h ⊢
      by_cases hver : H.SOCKOPT_VERSION = (replyOf H ch).version
      · simp [hver, herr, h0]
      · rw [if_pos hver] at h
        exact absurd h hVe
    · have hpos : 0 < (replyOf H ch).len := Nat.pos_of_ne_zero h0
      by_cases hpl : hp.plan.head? = some true
      swap
      · rw [recv_nomem H ch hp slot none none hfull herr hpos hpl] at h
        exact absurd h hN
      obtain ⟨rest, hplan⟩ := plan_of_head hp hpl
      have hff : ∀ bytes, (free (heapWithBody hp rest (replyOf H ch).len bytes)
          (some hp.next)).freed = hp.next :: hp.freed := by
        intro bytes
        simp [free, heapWithBody, store]
      rw [recv_alloc H ch hp slot none none rest hfull herr hpos hplan] at h ⊢
      simp only [] at h ⊢
      split_ifs at h ⊢ with c1 c2
      · exact absurd h hI
      · exact absurd h hVe
      · simp at *
      · have c2' : H.SOCKOPT_VERSION = (replyOf H ch).version := not_not.mp c2
        simp [herr, c2', hff, lookup_free]

/-- C5, at concrete inputs with bodies: `set(7, [5, 6], 2)` against a server that
answers with version 1, error code 0 and a 3-byte body.  Right to left: every
phase succeeds, so the call returns `ESOCKOPT_OK`.  Left to right: from the
status alone, the bytes written are the header followed by `[5, 6]` and the
3-byte reply body was allocated and arrived.  When the connection breaks after
two reply body bytes the call does not return `ESOCKOPT_OK`.  And the receive
phase on that reply, called without output slots, fills in a header with error
code 0 and version 1, returns nothing and has freed the body buffer (address
100) once. -/
theorem C5_set_succeeds_iff_witness :
    (2 : Nat) ≤ ([5, 6] : List Byte).length
    ∧ (replyOf specH setBodyWorld.chan).len = 3
    ∧ (dpvs_setsockopt specH setBodyWorld 7 (some [5, 6]) 2).1 = specH.ESOCKOPT_OK
    ∧ (dpvs_setsockopt specH setBodyWorld 7 (some [5, 6]) 2).2.chan.sent
        = [1, 0, 0, 0, 7, 0, 0, 0, 1, 2, 0, 0, 0, 0, 0, 0, 0] ++ [5, 6]
    ∧ specH.replySize + 3 ≤ setBodyWorld.chan.input.length
    ∧ (dpvs_setsockopt specH setShortBodyWorld 7 (some [5, 6]) 2).1 ≠ specH.ESOCKOPT_OK
    ∧ (sockopt_msg_recv specH setBodyWorld.chan (heapWith [true]) (some blankReply)
        none none).reply_hdr = some (replyHdr 1 0 3)
    ∧ (sockopt_msg_recv specH setBodyWorld.chan (heapWith [true]) (some blankReply)
        none none).out = none
    ∧ (sockopt_msg_recv specH setBodyWorld.chan (heapWith [true]) (some blankReply)
        none none).heap.freed = [100]
    ∧ (sockopt_msg_recv specH setBodyWorld.chan (heapWith [true]) (some blankReply)
        none none).heap.lookup 100 = none :=
  have hbuf : ∀ d : List Byte, some ([5, 6] : List Byte) = some d → 2 ≤ d.length :=
    fun d hd => Option.some.inj hd ▸ (by decide)
  have h := C5_set_succeeds_iff specH setBodyWorld 7 (some [5, 6]) 2 (by decide) (by decide)
    (by decide) (by decide) (by decide) (by decide) hbuf (fun _ => by decide)
  have hs := C5_set_succeeds_iff specH setShortBodyWorld 7 (some [5, 6]) 2 (by decide)
    (by decide) (by decide) (by decide) (by decide) (by decide) hbuf (fun _ => by decide)
  -- right to left: every phase succeeded
  have hok : (dpvs_setsockopt specH setBodyWorld 7 (some [5, 6]) 2).1 = specH.ESOCKOPT_OK :=
    h.1.mpr ⟨by decide, by decide, by decide, fun _ => ⟨by decide, by decide⟩, by decide,
      by decide⟩
  -- left to right: what the status tells
  have hall := h.1.mp hok
  have hbody := (hall.2.2.2.1 (by decide)).2
  -- the broken connection
  have hshort : (dpvs_setsockopt specH setShortBodyWorld 7 (some [5, 6]) 2).1
      ≠ specH.ESOCKOPT_OK :=
    fun hk => absurd ((hs.1.mp hk).2.2.2.1 (by decide)).2 (by decide)
  -- the receive phase alone
  have hr := h.2 setBodyWorld.chan (heapWith [true]) blankReply (by decide)
  have hfreed := hr.2.2.2.2.2 (by decide)
  ⟨by decide, by decide, hok, hall.2.1.trans (by decide), hbody.trans' (by decide), hshort,
    hr.1.trans (by decide), hr.2.2.2.1, hfreed.1, hfreed.2⟩

/-- C5, the counterexample. `dpvs_setsockopt(7, NULL, 1)` against a server that
answers with version 1, error code 0 and no body: the call returns
`ESOCKOPT_OK` although the request was not completely sent: the header
announces a one-byte body and no body byte was written. -/
theorem C5_ok_without_body_sent :
    (dpvs_setsockopt specH okWorld 7 none 1).1 = specH.ESOCKOPT_OK
    ∧ ¬ RequestFullySent specH (setMsg specH 7 1) okWorld.chan
        (dpvs_setsockopt specH okWorld 7 none 1).2.chan := by
  refine ⟨by decide, ?_⟩
  rintro ⟨body, hb, hs⟩
  have h1 : (dpvs_setsockopt specH okWorld 7 none 1).2.chan.sent.length = 17 := by decide
  have h2 := congrArg List.length hs
  have h3 : (specH.encodeMsg (setMsg specH 7 1)).length = 17 := by decide
  have h4 : okWorld.chan.sent.length = 0 := by decide
  have h5 : (setMsg specH 7 1).len = 1 := rfl
  rw [h1, List.length_append, List.length_append, h3, h4, hb, h5] at h2
  omega

/-! ## `dpvs_getsockopt` against `dpvs_setsockopt` -/

theorem readn_indep (c1 c2 : Chan) (n : Nat) (h1 : c1.input = c2.input)
    (h2 : c1.inputErr = c2.inputErr) :
    (readn c1 n).ret = (readn c2 n).ret ∧ (readn c1 n).data = (readn c2 n).data
    ∧ (readn c1 n).chan.input = (readn c2 n).chan.input
    ∧ (readn c1 n).chan.inputErr = (readn c2 n).chan.inputErr := by
  unfold readn
  rw [h1, h2]
  split <;> exact ⟨rfl, rfl, rfl, rfl⟩

/-- The status of `sockopt_msg_recv` and the header it fills in depend on the
bytes the socket delivers and on the heap only, not on the output slots. -/
theorem recv_status_indep (H : SockoptH) (c1 c2 : Chan) (hp : Heap)
    (s1 s2 : dpvs_sock_msg_reply) (o1 o2 : Option Ptr) (l1 l2 : Option Nat)
    (h1 : c1.input = c2.input) (h2 : c1.inputErr = c2.inputErr) :
    (sockopt_msg_recv H c1 hp (some s1) o1 l1).ret
      = (sockopt_msg_recv H c2 hp (some s2) o2 l2).ret
    ∧ (sockopt_msg_recv H c1 hp (some s1) o1 l1).reply_hdr
      = (sockopt_msg_recv H c2 hp (some s2) o2 l2).reply_hdr := by
  obtain ⟨a1, a2, a3, a4⟩ := readn_indep c1 c2 (toSizeT (toInt32 H.replySize)) h1 h2
  have b := fun n => (readn_indep (readn c1 (toSizeT (toInt32 H.replySize))).chan
    (readn c2 (toSizeT (toInt32 H.replySize))).chan n a3 a4).1
  unfold sockopt_msg_recv
  simp only []
  generalize readn c1 (toSizeT (toInt32 ↑H.replySize)) = r1 at a1 a2 b ⊢
  generalize readn c2 (toSizeT (toInt32 ↑H.replySize)) = r1' at a1 a2 b ⊢
  rw [a1, a2]
  generalize H.decodeReply (r1'.data ++ List.replicate (H.replySize - r1'.data.length) 0) = hdr
  have b' := b hdr.len
  generalize readn r1.chan hdr.len = r2 at b'
  generalize readn r1'.chan hdr.len = r2' at b'
  rw [b']
  generalize malloc hp hdr.len = m
  generalize toInt32 r1'.ret = x1
  generalize toSizeT (toInt32 r2'.ret) = x2
  cases m.1 <;> simp only [] <;> split_ifs <;> exact ⟨rfl, rfl⟩

/-- Apart from the allocation failure of the request header, `dpvs_getsockopt`
(both output slots supplied) and `dpvs_setsockopt` return the same status in
every environment. -/
theorem get_status_eq_set (H : SockoptH) (w : World) (cmd : Int) (inp : Option (List Byte))
    (in_len : Nat) (o : Ptr) (ol : Nat)
    (hm : (malloc w.heap H.msgSize).1.isSome = true) :
    (dpvs_getsockopt H w cmd inp in_len (some o) (some ol)).ret
      = (dpvs_setsockopt H w cmd inp in_len).1 := by
  by_cases hcn : connect (socket w.fds).2 (socket w.fds).1 = -1
  · obtain ⟨a, ha⟩ := Option.isSome_iff_exists.mp hm
    simp only [dpvs_setsockopt, dpvs_getsockopt, ha, hcn, if_true, Option.isNone_some,
      Bool.false_eq_true, or_self, if_false]
  · have hc : Connects H w := ⟨hm, hcn⟩
    obtain ⟨rest, hplan⟩ := plan_of_connects H w hc
    have hst := send_status_indep H w.chan (getMsg H cmd in_len) (setMsg H cmd in_len) inp
      (toInt32 in_len)
    have hig := send_input H w.chan (some (getMsg H cmd in_len)) inp (toInt32 in_len)
    have his := send_input H w.chan (some (setMsg H cmd in_len)) inp (toInt32 in_len)
    have hr := recv_status_indep H
      (sockopt_msg_send H w.chan (some (getMsg H cmd in_len)) inp (toInt32 in_len)).2
      (sockopt_msg_send H w.chan (some (setMsg H cmd in_len)) inp (toInt32 in_len)).2
      (heapAfterSend H w.heap (H.encodeMsg (setMsg H cmd in_len))) blankReply blankReply
      (some none) none (some 0) none (hig.1.trans his.1.symm) (hig.2.1.trans his.2.1.symm)
    have hheap : heapAfterSend H w.heap (H.encodeMsg (getMsg H cmd in_len))
        = heapAfterSend H w.heap (H.encodeMsg (setMsg H cmd in_len)) := by
      rw [heapAfterSend_eq H w.heap _ rest hplan, heapAfterSend_eq H w.heap _ rest hplan]
    rw [get_connected H w cmd inp in_len o ol hc, set_connected H w cmd inp in_len hc]
    simp only [hst, hheap, hr.1, hr.2]
    split_ifs
    · rfl
    · rfl
    · split
      · split_ifs <;> rfl
      · rfl

/-- When the request header cannot be allocated, `dpvs_setsockopt` returns
`-ESOCKOPT_INVAL` and `dpvs_getsockopt` `-ESOCKOPT_NOMEM`. -/
theorem alloc_failure_statuses (H : SockoptH) (w : World) (cmd : Int)
    (inp : Option (List Byte)) (in_len : Nat) (o : Ptr) (ol : Nat)
    (hm : (malloc w.heap H.msgSize).1 = none) :
    (dpvs_setsockopt H w cmd inp in_len).1 = - H.ESOCKOPT_INVAL
    ∧ (dpvs_getsockopt H w cmd inp in_len (some o) (some ol)).ret = - H.ESOCKOPT_NOMEM := by
  simp only [dpvs_setsockopt, dpvs_getsockopt, hm, Option.isNone_some, Bool.false_eq_true,
    or_self, if_false, and_self]

/-! ## The two `int` narrowings -/

/-- An `in_len` of 2^32 becomes `data_len = 0` (line 13): the send phase reports
success, the header announces 2^32 body bytes, and no body byte is written. -/
theorem send_narrows_in_len (d : List Byte) :
    toInt32 (4294967296 : Nat) = 0
    ∧ (sockopt_msg_send specH (chanWith []) (some (setMsg specH 7 4294967296)) (some d)
        (toInt32 (4294967296 : Nat))).1 = 0
    ∧ (sockopt_msg_send specH (chanWith []) (some (setMsg specH 7 4294967296)) (some d)
        (toInt32 (4294967296 : Nat))).2.sent = specH.encodeMsg (setMsg specH 7 4294967296) := by
  have h : toInt32 (4294967296 : Nat) = 0 := by decide
  rw [h]
  exact ⟨rfl, rfl, rfl⟩

/-- A reply body of 2^31 bytes or more that is allocated and arrives in full
makes `dpvs_setsockopt` fail with `-ESOCKOPT_IO`, whatever the reply's version:
the byte count is narrowed to the `int` `res` (line 80). -/
theorem set_wide_reply_fails (H : SockoptH) (w : World) (cmd : Int)
    (inp : Option (List Byte)) (in_len : Nat) (rest : List Bool)
    (hc : Connects H w) (hs : SendOk H w (setMsg H cmd in_len) inp in_len)
    (hIo : H.ESOCKOPT_IO ≠ 0)
    (hfull : HeaderArrives H w.chan) (herr : (replyOf H w.chan).errcode = 0)
    (hplan : w.heap.plan = true :: true :: rest)
    (hbody : H.replySize + (replyOf H w.chan).len ≤ w.chan.input.length)
    (hwide : toSizeT (toInt32 ((replyOf H w.chan).len : Int)) ≠ (replyOf H w.chan).len) :
    (dpvs_setsockopt H w cmd inp in_len).1 = - H.ESOCKOPT_IO := by
  have hIo' : - H.ESOCKOPT_IO ≠ 0 := by omega
  have hi := send_input H w.chan (some (setMsg H cmd in_len)) inp (toInt32 in_len)
  have hrep := replyOf_send H w.chan (some (setMsg H cmd in_len)) inp (toInt32 in_len)
  apply set_of_recv_ret H w cmd inp in_len hc hs _ hIo'
  exact (recv_wide_body H _ _ blankReply none none rest
    ((headerArrives_send H w.chan _ inp _).mpr hfull) (by rw [hrep]; exact herr)
    (by rw [heapAfterSend_eq H w.heap _ (true :: rest) hplan])
    (by rw [hrep, hi.1]; exact hbody) (by rw [hrep]; exact hwide)).1

end Sockopt
